import Mathlib

/-!
Verification of the forecast calculation engine of the AmazonBackend repository
(`app/algorithms/algorithms_tps.py`, `app/algorithms/forecast_18m_plus_v2.py`,
`app/services/forecast_service.py`) against its natural-language specification.

Conventions of the shallow embedding:
* Python `date`/`Timestamp` values are modelled as proleptic-Gregorian ordinals
  (`ℤ`, day 1 = 0001-01-01, a Monday), the representation used by
  `date.toordinal()`.  Differences of dates are exact day counts.
  `date + timedelta(days = x)` for fractional `x` adds `⌊x⌋` whole days, which
  is what Python's timedelta normalisation does.
* Python floats are modelled as exact rationals (`ℚ`), except the 0-6 month
  algorithm whose `pow(ratio, 0.65)` forces real-number arithmetic (`ℝ`,
  `Real.rpow`).  Shared primitives are polymorphic over a linear ordered field.
* `None`-able float series are `List (Option ℚ)`; a dict read
  `d.get(k, default)` of a possibly-missing key is an `Option` field plus
  `Option.getD`.
* In-place mutation of the caller's `settings` dict is explicit state passing:
  mutating functions return the final settings value alongside their result
  (the source stores the same dict object in the result under `'settings'`).
* Python `round` is round-half-to-even (`pyRound`), `%` on integers is
  `Int.emod`, `//` is `Int.fdiv`.
-/

-- ===========================================================================
-- Python-runtime primitives: banker's rounding, calendar arithmetic
-- ===========================================================================

/-- Python `round(q)` : round half to even (banker's rounding), on exact
rationals. -/
def pyRound {α : Type} [LinearOrderedField α] [FloorRing α] (q : α) : ℤ :=
  if q - (Int.floor q : α) < 1/2 then Int.floor q
  else if 1/2 < q - (Int.floor q : α) then Int.floor q + 1
  else if Int.floor q % 2 = 0 then Int.floor q else Int.floor q + 1

/-- Python `round(q, 2)` : round to two decimal places, half to even. -/
def pyRound2 {α : Type} [LinearOrderedField α] [FloorRing α] (q : α) : α :=
  (pyRound (q * 100) : ℤ) / 100

/-- Python `date.weekday()` from the proleptic-Gregorian ordinal
(Monday = 0).  Ordinal 1 = 0001-01-01 was a Monday. -/
def pyWeekday (o : ℤ) : ℤ := (o - 1) % 7

/-- Civil date `(year, month, day)` from a proleptic-Gregorian ordinal
(Hinnant's `civil_from_days`, shifted from the unix epoch to ordinals). -/
def civilFromDays (o : ℤ) : ℤ × ℤ × ℤ :=
  let z := o - 719163 + 719468
  let era := Int.fdiv z 146097
  let doe := z - era * 146097
  let yoe := Int.fdiv (doe - Int.fdiv doe 1460 + Int.fdiv doe 36524 - Int.fdiv doe 146096) 365
  let y := yoe + era * 400
  let doy := doe - (365 * yoe + Int.fdiv yoe 4 - Int.fdiv yoe 100)
  let mp := Int.fdiv (5 * doy + 2) 153
  let d := doy - Int.fdiv (153 * mp + 2) 5 + 1
  let m := mp + (if mp < 10 then 3 else -9)
  (y + (if m ≤ 2 then 1 else 0), m, d)

/-- Proleptic-Gregorian ordinal from a civil date (Hinnant's
`days_from_civil`, shifted to ordinals). -/
def daysFromCivil (y m d : ℤ) : ℤ :=
  let yy := y - (if m ≤ 2 then 1 else 0)
  let era := Int.fdiv yy 400
  let yoe := yy - era * 400
  let mp := m + (if 2 < m then -3 else 9)
  let doy := Int.fdiv (153 * mp + 2) 5 + d - 1
  let doe := yoe * 365 + Int.fdiv yoe 4 - Int.fdiv yoe 100 + doy
  era * 146097 + doe - 719468 + 719163

/-- Python `date.isocalendar()[1]` : ISO-8601 week number of the year, from
the ordinal.  The ISO year of a date is the calendar year of the Thursday of
its week; the week number counts weeks from that year's first ISO week. -/
def isoWeekOfYear (o : ℤ) : ℤ :=
  let th := o + (3 - pyWeekday o)
  let y := (civilFromDays th).1
  let jan1 := daysFromCivil y 1 1
  Int.fdiv (th - jan1) 7 + 1

-- ===========================================================================
-- `weighted_average` (algorithms_tps.py lines 55-80)
-- Excel OFFSET-based weighted average with IFERROR/SIGN semantics: an offset
-- is counted (in numerator and denominator) only when the index is in bounds
-- and the value there is present (not None) and strictly positive.
-- ===========================================================================

/-- The guarded series lookup of `weighted_average`'s loop body: the value at
offset `k` of the weight kernel, or `none` when the index is out of bounds,
the stored value is absent, or the stored value is not strictly positive
(`0 <= idx < n and values[idx] is not None and values[idx] > 0`). -/
def waLookup {α : Type} [LinearOrderedField α]
    (values : List (Option α)) (center_idx half_len k : ℕ) : Option α :=
  let n : ℤ := values.length
  let idx : ℤ := (center_idx : ℤ) - (half_len : ℤ) + (k : ℤ)
  if 0 ≤ idx ∧ idx < n then
    match values.getD idx.toNat none with
    | some v => if 0 < v then some v else none
    | none => none
  else none

/-- Accumulated `weighted_sum` of the `weighted_average` loop. -/
def waWeightedSum {α : Type} [LinearOrderedField α]
    (values : List (Option α)) (weights : List α) (center_idx : ℕ) : α :=
  ((List.range weights.length).map (fun k =>
    match waLookup values center_idx (weights.length / 2) k with
    | some v => v * weights.getD k 0
    | none => 0)).sum

/-- Accumulated `weight_sum` of the `weighted_average` loop (`SIGN` logic:
a weight is counted only when its value qualifies). -/
def waWeightSum {α : Type} [LinearOrderedField α]
    (values : List (Option α)) (weights : List α) (center_idx : ℕ) : α :=
  ((List.range weights.length).map (fun k =>
    match waLookup values center_idx (weights.length / 2) k with
    | some _ => weights.getD k 0
    | none => 0)).sum

/-- `weighted_average(values, weights, center_idx)`: centred weighted average
returning `weighted_sum / weight_sum` when `weight_sum > 0`, else 0. -/
def weighted_average {α : Type} [LinearOrderedField α]
    (values : List (Option α)) (weights : List α) (center_idx : ℕ) : α :=
  if 0 < waWeightSum values weights center_idx then
    waWeightedSum values weights center_idx / waWeightSum values weights center_idx
  else 0

-- Pointwise behaviour of the guarded lookup under replacing a stored zero by
-- an absent value, and a stored positive value by zero.

lemma waLookup_set_none_of_zero {α : Type} [LinearOrderedField α]
    (values : List (Option α)) (i : ℕ) (h : values.getD i none = some 0)
    (c hl k : ℕ) : waLookup (values.set i none) c hl k = waLookup values c hl k := by
  have hi : i < values.length := by
    by_contra hge
    rw [List.getD_eq_getElem?_getD, List.getElem?_eq_none (by omega)] at h
    simp at h
  unfold waLookup
  rw [List.length_set]
  by_cases hcond : 0 ≤ (c : ℤ) - (hl : ℤ) + (k : ℤ) ∧ (c : ℤ) - (hl : ℤ) + (k : ℤ) < (values.length : ℤ)
  · simp only [hcond, if_true]
    by_cases heq : ((c : ℤ) - (hl : ℤ) + (k : ℤ)).toNat = i
    · rw [heq]
      have hset : (values.set i none).getD i none = none := by
        rw [List.getD_eq_getElem?_getD, List.getElem?_set_self hi]; rfl
      rw [hset, h]
      simp
    · rw [List.getD_eq_getElem?_getD, List.getD_eq_getElem?_getD,
        List.getElem?_set_ne (Ne.symm heq)]
  · simp only [hcond, if_false]

lemma waLookup_set_zero_eq_set_none {α : Type} [LinearOrderedField α]
    (values : List (Option α)) (i : ℕ) (c hl k : ℕ) :
    waLookup (values.set i (some 0)) c hl k = waLookup (values.set i none) c hl k := by
  unfold waLookup
  rw [List.length_set, List.length_set]
  by_cases hcond : 0 ≤ (c : ℤ) - (hl : ℤ) + (k : ℤ) ∧ (c : ℤ) - (hl : ℤ) + (k : ℤ) < (values.length : ℤ)
  · simp only [hcond, if_true]
    by_cases heq : ((c : ℤ) - (hl : ℤ) + (k : ℤ)).toNat = i
    · subst heq
      by_cases hi : ((c : ℤ) - (hl : ℤ) + (k : ℤ)).toNat < values.length
      · rw [List.getD_eq_getElem?_getD, List.getD_eq_getElem?_getD,
          List.getElem?_set_self hi, List.getElem?_set_self hi]
        simp
      · rw [List.getD_eq_getElem?_getD, List.getD_eq_getElem?_getD,
          List.getElem?_eq_none (by rw [List.length_set]; omega),
          List.getElem?_eq_none (by rw [List.length_set]; omega)]
    · rw [List.getD_eq_getElem?_getD, List.getD_eq_getElem?_getD,
        List.getElem?_set_ne (Ne.symm heq), List.getElem?_set_ne (Ne.symm heq)]
  · simp only [hcond, if_false]

lemma weighted_average_congr_lookup {α : Type} [LinearOrderedField α]
    (v1 v2 : List (Option α)) (weights : List α) (c : ℕ)
    (h : ∀ k, waLookup v1 c (weights.length / 2) k = waLookup v2 c (weights.length / 2) k) :
    weighted_average v1 weights c = weighted_average v2 weights c := by
  have hw : waWeightedSum v1 weights c = waWeightedSum v2 weights c := by
    unfold waWeightedSum; congr 1
    exact List.map_congr_left (fun k _ => by rw [h k])
  have hs : waWeightSum v1 weights c = waWeightSum v2 weights c := by
    unfold waWeightSum; congr 1
    exact List.map_congr_left (fun k _ => by rw [h k])
  unfold weighted_average
  rw [hw, hs]

/-- C1 (amended): in `weighted_average`, an offset position contributes only
when it is in bounds and its value is present and strictly positive.
(1) Replacing a stored zero by an absent value at the same position leaves the
result unchanged; (2) replacing a strictly positive value by zero removes its
term entirely: the result equals the average computed with that position
absent (it therefore need not change the numeric value — see the
counterexample); (3) if no offset qualifies, the result is 0. -/
theorem C1_weighted_average_exclusion (values : List (Option ℚ)) (weights : List ℚ)
    (c i : ℕ) :
    (values.getD i none = some 0 →
      weighted_average (values.set i none) weights c = weighted_average values weights c)
    ∧ (∀ v : ℚ, values.getD i none = some v → 0 < v →
      weighted_average (values.set i (some 0)) weights c
        = weighted_average (values.set i none) weights c)
    ∧ ((∀ k, k < weights.length → waLookup values c (weights.length / 2) k = none) →
      weighted_average values weights c = 0) := by
  refine ⟨fun h => ?_, fun v _ _ => ?_, fun h => ?_⟩
  · exact weighted_average_congr_lookup _ _ _ _
      (fun k => waLookup_set_none_of_zero values i h c _ k)
  · exact weighted_average_congr_lookup _ _ _ _
      (fun k => waLookup_set_zero_eq_set_none values i c _ k)
  · have hs : waWeightSum values weights c = 0 := by
      unfold waWeightSum
      apply List.sum_eq_zero
      intro x hx
      obtain ⟨k, hk, hfx⟩ := List.mem_map.1 hx
      rw [h k (List.mem_range.1 hk)] at hfx
      exact hfx.symm
    unfold weighted_average
    rw [hs]
    simp

/-- C1 counterexample: the claim that replacing a strictly positive value with
zero must change the computed average is false.  In the constant series
`[5, 5, 5]` with kernel `[1, 1, 1]` centred at index 1, position 0 holds the
strictly positive value 5, yet zeroing it leaves the average at 5: the term is
removed from numerator and denominator alike. -/
theorem C1_counterexample :
    ([some (5:ℚ), some 5, some 5].getD 0 none = some 5) ∧ ((0:ℚ) < 5) ∧
    weighted_average ([some (5:ℚ), some 5, some 5].set 0 (some 0)) [1, 1, 1] 1
      = weighted_average [some (5:ℚ), some 5, some 5] [1, 1, 1] 1 := by
  refine ⟨rfl, by norm_num, ?_⟩
  norm_num [weighted_average, waWeightedSum, waWeightSum, waLookup,
    show List.range 3 = [0, 1, 2] from rfl, List.getD]

/-- C1 witness: the three conjuncts of `C1_weighted_average_exclusion`
instantiated on the concrete series `[0, 2, 1]` (zero-vs-absent and
positive-to-zero at position 0) and on an all-absent series. -/
theorem C1_witness :
    (weighted_average ([some (0:ℚ), some 2, some 1].set 0 none) [1, 1, 1] 1
      = weighted_average [some (0:ℚ), some 2, some 1] [1, 1, 1] 1)
    ∧ (weighted_average ([some (2:ℚ), some 2, some 1].set 0 (some 0)) [1, 1, 1] 1
      = weighted_average ([some (2:ℚ), some 2, some 1].set 0 none) [1, 1, 1] 1)
    ∧ weighted_average ([none, none] : List (Option ℚ)) [1, 1, 1] 1 = 0 := by
  refine ⟨(C1_weighted_average_exclusion [some (0:ℚ), some 2, some 1] [1,1,1] 1 0).1 rfl,
    ((C1_weighted_average_exclusion [some (2:ℚ), some 2, some 1] [1,1,1] 1 0).2.1 2 rfl (by norm_num)),
    ((C1_weighted_average_exclusion ([none, none] : List (Option ℚ)) [1,1,1] 1 0).2.2 ?_)⟩
  intro k hk
  have hk3 : k < 3 := by simpa using hk
  interval_cases k <;> rfl

-- ===========================================================================
-- Column G chain: `calculate_units_final_curve` (algorithms_tps.py 117-190)
-- ===========================================================================

/-- One weekly sales record as consumed by the 18m+ chain:
`week_end = parse_date(d.get('week_end') or d.get('week_date'))` and
`units = d.get('units_sold', d.get('units', 0))` (which may be `None`:
blank and zero are distinct). -/
structure UnitsRow where
  week_end : Option ℤ
  units : Option ℚ
deriving DecidableEq, Repr

/-- The extended units series: original values followed by `extend_weeks`
synthetic blank future weeks (`None`, distinct from 0). -/
def extendedUnits (units_data : List UnitsRow) (extend_weeks : ℕ) : List (Option ℚ) :=
  units_data.map (·.units) ++ List.replicate extend_weeks none

/-- Column D (peak envelope): `IF(C="","",MAX(OFFSET(C,-2,0,4)))`.
Blank rows (value `None`) and rows beyond the original data yield 0; otherwise
the maximum of the present values at offsets `[i-2, i-1, i, i+1]` that are in
bounds, or 0 when no such value exists.  (The source's empty-string blank test
has no counterpart for numeric inputs.) -/
def peakEnvD (units : List (Option ℚ)) (n_original : ℕ) : List ℚ :=
  (List.range units.length).map (fun i =>
    if n_original ≤ i then 0
    else if units.getD i none = none then 0
    else
      let window := ([(i:ℤ) - 2, (i:ℤ) - 1, (i:ℤ), (i:ℤ) + 1]).filterMap (fun j =>
        if 0 ≤ j ∧ j < (units.length : ℤ) then units.getD j.toNat none else none)
      (window.max?).getD 0)

/-- Column E: peak envelope offset `(D[i] + D[i+1]) / 2`, next value 0 past
the end. -/
def peakEnvOffsetE (peak_env : List ℚ) : List ℚ :=
  (List.range peak_env.length).map (fun i =>
    (peak_env.getD i 0 + (if i + 1 < peak_env.length then peak_env.getD (i+1) 0 else 0)) / 2)

/-- Column F: smooth envelope, the average of the in-bounds E values at
offsets `[i-1, i, i+1]`. -/
def smoothEnvF (env_offset : List ℚ) : List ℚ :=
  (List.range env_offset.length).map (fun i =>
    let vals := ([(i:ℤ) - 1, (i:ℤ), (i:ℤ) + 1]).filterMap (fun j =>
      if 0 ≤ j ∧ j < (env_offset.length : ℤ) then some (env_offset.getD j.toNat 0) else none)
    if vals.length = 0 then 0 else vals.sum / (vals.length : ℚ))

/-- `calculate_units_final_curve`: Column G = `MAX(C, E, F)` over the series
extended with `extend_weeks` blank future weeks. -/
def calculate_units_final_curve (units_data : List UnitsRow) (extend_weeks : ℕ) : List ℚ :=
  if units_data.length = 0 then []
  else
    let units := extendedUnits units_data extend_weeks
    let peak_env := peakEnvD units units_data.length
    let env_offset := peakEnvOffsetE peak_env
    let smooth := smoothEnvF env_offset
    (List.range units.length).map (fun i =>
      max (max ((units.getD i none).getD 0) (env_offset.getD i 0)) (smooth.getD i 0))

/-- `calculate_units_final_smooth`: Column H, the 11-week weighted average of
Column G with kernel `[1,2,4,7,11,13,11,7,4,2,1]`, computed for the first
`original_length` rows. -/
def calculate_units_final_smooth (units_final_curve : List ℚ) (original_length : ℕ) : List ℚ :=
  (List.range original_length).map (fun i =>
    weighted_average (units_final_curve.map some) [1, 2, 4, 7, 11, 13, 11, 7, 4, 2, 1] i)

/-- `calculate_units_final_smooth_85`: Column I = `H * 0.85` (0 when H is
falsy, i.e. 0). -/
def calculate_units_final_smooth_85 (units_final_smooth : List ℚ) : List ℚ :=
  units_final_smooth.map (fun v => if v = 0 then 0 else v * (85/100))

/-- The peak-envelope value as the specification words it: the maximum over
the asymmetric window `[i-2, i+1]`, excluding out-of-bounds positions and
positions whose value is absent, counting a present 0 as a valid candidate,
and 0 when no position qualifies.  Defined for comparison with `peakEnvD`. -/
def specPeakEnvelope (units : List (Option ℚ)) (i : ℕ) : ℚ :=
  (((([(i:ℤ) - 2, (i:ℤ) - 1, (i:ℤ), (i:ℤ) + 1]).filterMap (fun j =>
    if 0 ≤ j ∧ j < (units.length : ℤ) then units.getD j.toNat none else none)).max?).getD 0)

/-- C2 (amended): the peak envelope agrees with the specified window maximum
at every index whose own value is present and which lies within the original
data; but at an index whose own value is absent — or beyond the original
length — it is 0 regardless of the neighbours.  In particular a window whose
centre holds a literal 0 with every other in-bounds position absent yields 0,
and an all-absent window yields 0. -/
theorem C2_peak_envelope (units : List (Option ℚ)) (n_original i : ℕ)
    (hi : i < units.length) :
    (units.getD i none ≠ none → i < n_original →
      (peakEnvD units n_original).getD i 0 = specPeakEnvelope units i)
    ∧ ((units.getD i none = none ∨ n_original ≤ i) →
      (peakEnvD units n_original).getD i 0 = 0)
    ∧ (units.getD i none = some 0 → i < n_original →
      (∀ j : ℤ, j ∈ [(i:ℤ) - 2, (i:ℤ) - 1, (i:ℤ) + 1] → 0 ≤ j → j < (units.length : ℤ) →
        units.getD j.toNat none = none) →
      (peakEnvD units n_original).getD i 0 = 0) := by
  have hget : ∀ v : ℚ → ℚ, True := fun _ => trivial
  have hD : (peakEnvD units n_original).getD i 0 =
      (if n_original ≤ i then 0
       else if units.getD i none = none then 0
       else specPeakEnvelope units i) := by
    unfold peakEnvD specPeakEnvelope
    rw [List.getD_eq_getElem?_getD, List.getElem?_map, List.getElem?_range hi]
    rfl
  refine ⟨fun hpres hlt => ?_, fun habs => ?_, fun h0 hlt hothers => ?_⟩
  · rw [hD, if_neg (by omega), if_neg hpres]
  · rcases habs with habs | habs
    · rw [hD]
      by_cases hn : n_original ≤ i
      · rw [if_pos hn]
      · rw [if_neg hn, if_pos habs]
    · rw [hD, if_pos habs]
  · rw [hD, if_neg (by omega), if_neg (by rw [h0]; simp)]
    unfold specPeakEnvelope
    have hwin : (([(i:ℤ) - 2, (i:ℤ) - 1, (i:ℤ), (i:ℤ) + 1]).filterMap (fun j =>
        if 0 ≤ j ∧ j < (units.length : ℤ) then units.getD j.toNat none else none)) = [0] := by
      have hstep : ∀ j : ℤ, j ∈ [(i:ℤ) - 2, (i:ℤ) - 1, (i:ℤ) + 1] →
          (if 0 ≤ j ∧ j < (units.length : ℤ) then units.getD j.toNat none else none) = none := by
        intro j hj
        by_cases hb : 0 ≤ j ∧ j < (units.length : ℤ)
        · rw [if_pos hb, hothers j hj hb.1 hb.2]
        · rw [if_neg hb]
      have hc : (if 0 ≤ (i:ℤ) ∧ (i:ℤ) < (units.length : ℤ) then units.getD (i:ℤ).toNat none else none)
          = some 0 := by
        rw [if_pos (by constructor <;> omega)]
        simpa using h0
      simp only [List.filterMap_cons]
      rw [hstep ((i:ℤ) - 2) (by simp), hstep ((i:ℤ) - 1) (by simp),
        hstep ((i:ℤ) + 1) (by simp), hc]
      rfl
    rw [hwin]
    rfl


/-- C2 counterexample: the claim that the operator returns the window maximum
with absent values merely excluded is false when the centre value itself is
absent: for the series `[5, blank]` at index 1 the window `[-1, 2]` contains
the present value 5, yet the code returns 0 because row 1's own value is
blank, while the specified window maximum is 5. -/
theorem C2_counterexample :
    (peakEnvD [some (5:ℚ), none] 2).getD 1 0 = 0
    ∧ specPeakEnvelope [some (5:ℚ), none] 1 = 5
    ∧ ((0:ℚ) ≠ 5) := by
  refine ⟨?_, ?_, by norm_num⟩
  · rfl
  · rfl

/-- C2 witness: `C2_peak_envelope` instantiated on `[0, blank, 3]` (present
centre at index 2: window max 3), on its blank index 1, and on `[0, blank]`
(literal 0 with the only other in-bounds position absent). -/
theorem C2_witness :
    ((peakEnvD [some (0:ℚ), none, some 3] 3).getD 2 0 = specPeakEnvelope [some (0:ℚ), none, some 3] 2)
    ∧ ((peakEnvD [some (0:ℚ), none, some 3] 3).getD 1 0 = 0)
    ∧ ((peakEnvD [some (0:ℚ), none] 2).getD 0 0 = 0) := by
  refine ⟨(C2_peak_envelope [some (0:ℚ), none, some 3] 3 2 (by norm_num)).1 (by decide) (by norm_num),
    (C2_peak_envelope [some (0:ℚ), none, some 3] 3 1 (by norm_num)).2.1 (Or.inl rfl),
    (C2_peak_envelope [some (0:ℚ), none] 2 0 (by norm_num)).2.2 rfl (by norm_num) ?_⟩
  intro j hj h0j hjl
  have hcase : j = ((0:ℕ):ℤ) - 2 ∨ j = ((0:ℕ):ℤ) - 1 ∨ j = ((0:ℕ):ℤ) + 1 := by
    simpa using hj
  have hj1 : j = 1 := by
    simp only [Nat.cast_zero] at hcase
    omega
  subst hj1
  rfl

-- ===========================================================================
-- Production sizing: `calculate_weekly_units_needed` (526-566) and
-- `calculate_units_to_make` (574-587)
-- ===========================================================================

/-- `calculate_weekly_units_needed`: Column AC.  For each (forecast, week_end)
pair, the portion of the week's forecast falling inside the planning window
`[today, today + lead_time_days]`:
`P * MAX(0, MIN(TODAY() + lead_time, A) - MAX(TODAY(), A - 7)) / 7`,
with 0 for a missing date or falsy (zero) forecast. -/
def calculate_weekly_units_needed {α : Type} [LinearOrderedField α]
    (forecasts : List α) (week_dates : List (Option ℤ)) (today lead_time_days : ℤ) :
    List α :=
  (forecasts.zip week_dates).map (fun p =>
    match p.2 with
    | none => 0
    | some week_end =>
      if p.1 = 0 then 0
      else
        let week_start := week_end - 7
        let period_start := max today week_start
        let period_end := min (today + lead_time_days) week_end
        let overlap_days := period_end - period_start
        if 0 < overlap_days then p.1 * ((overlap_days : α) / 7) else 0)

/-- `calculate_units_to_make`: Column AE,
`int(round(max(0, sum(weekly_units_needed) - total_inventory)))`. -/
def calculate_units_to_make {α : Type} [LinearOrderedField α] [FloorRing α]
    (weekly_units_needed : List α) (total_inventory : ℤ) : ℤ :=
  pyRound (max 0 (weekly_units_needed.sum - (total_inventory : α)))

lemma pyRound_nonneg {α : Type} [LinearOrderedField α] [FloorRing α]
    (x : α) (h : 0 ≤ x) : 0 ≤ pyRound x := by
  have hf : 0 ≤ Int.floor x := Int.floor_nonneg.mpr h
  unfold pyRound
  split_ifs <;> omega

lemma pyRound_nonpos {α : Type} [LinearOrderedField α] [FloorRing α]
    (x : α) (h : x ≤ 0) : pyRound x ≤ 0 := by
  have hf : Int.floor x ≤ 0 := Int.floor_nonpos h
  unfold pyRound
  split_ifs with h1 h2 h3
  · exact hf
  · -- x - ⌊x⌋ > 1/2 forces ⌊x⌋ < 0
    have hlt : ((Int.floor x : ℤ) : α) < 0 := by
      have : ((Int.floor x : ℤ) : α) < x - 1/2 := by linarith
      linarith
    have : Int.floor x < 0 := by exact_mod_cast hlt
    omega
  · exact hf
  · -- exact half: x = ⌊x⌋ + 1/2 ≤ 0 forces ⌊x⌋ < 0
    have hhalf : x - (Int.floor x : α) = 1/2 := le_antisymm (not_lt.mp h2) (not_lt.mp h1)
    have hlt : ((Int.floor x : ℤ) : α) < 0 := by linarith
    have : Int.floor x < 0 := by exact_mod_cast hlt
    omega

lemma pyRound_zero {α : Type} [LinearOrderedField α] [FloorRing α] :
    pyRound (0 : α) = 0 := by
  unfold pyRound
  norm_num

lemma pyRound_max_zero {α : Type} [LinearOrderedField α] [FloorRing α] (x : α) :
    pyRound (max 0 x) = max 0 (pyRound x) := by
  rcases le_or_lt x 0 with h | h
  · rw [max_eq_left h, pyRound_zero]
    exact (max_eq_left (pyRound_nonpos x h)).symm
  · rw [max_eq_right h.le, max_eq_right (pyRound_nonneg x h.le)]

/-- C4: production sizing.  (1) Each week's needed units equal
`forecast * max(0, min(window_end, week_end) - max(today, week_end - 7)) / 7`
(0 when the date is missing); (2) `units_to_make` equals
`max(0, round(total_units_needed - current_inventory))`; (3) the specified
scenario — inventory 500, constant 50/week starting today, a 130-day window —
yields exactly 429 units to make. -/
theorem C4_production_sizing :
    (∀ (forecasts : List ℚ) (week_dates : List (Option ℤ)) (today lead_time_days : ℤ),
      calculate_weekly_units_needed forecasts week_dates today lead_time_days
        = (forecasts.zip week_dates).map (fun p =>
            match p.2 with
            | none => 0
            | some week_end =>
              p.1 * (((max 0 (min (today + lead_time_days) week_end - max today (week_end - 7)) : ℤ) : ℚ) / 7)))
    ∧ (∀ (weekly : List ℚ) (inv : ℤ),
      calculate_units_to_make weekly inv = max 0 (pyRound (weekly.sum - (inv : ℚ))))
    ∧ calculate_units_to_make
        (calculate_weekly_units_needed (List.replicate 20 (50:ℚ))
          ((List.range 20).map (fun k => some ((7:ℤ) * ((k:ℤ) + 1)))) 0 130) 500 = 429 := by
  refine ⟨fun forecasts week_dates today lead => ?_, fun weekly inv => ?_, ?_⟩
  · unfold calculate_weekly_units_needed
    apply List.map_congr_left
    intro p _
    match p with
    | (f, none) => rfl
    | (f, some week_end) =>
      simp only
      by_cases hf : f = 0
      · subst hf
        simp
      · rw [if_neg hf]
        by_cases hov : 0 < min (today + lead) week_end - max today (week_end - 7)
        · rw [if_pos hov, max_eq_right hov.le]
        · rw [if_neg hov, max_eq_left (not_lt.mp hov)]
          simp
  · unfold calculate_units_to_make
    exact pyRound_max_zero _
  · show calculate_units_to_make
        (calculate_weekly_units_needed (List.replicate 20 (50:ℚ))
          (((List.range 20).map (fun k => some ((7:ℤ) * ((k:ℤ) + 1))))) 0 130) 500 = 429
    rw [show (List.range 20) = [0,1,2,3,4,5,6,7,8,9,10,11,12,13,14,15,16,17,18,19] from rfl]
    norm_num [calculate_weekly_units_needed, calculate_units_to_make,
      List.zip, List.zipWith, pyRound, max_def, min_def]

-- ===========================================================================
-- DOI / runout simulation: `calculate_doi` (algorithms_tps.py 594-659) and
-- `_calc_inventory_tracking_exact` (forecast_18m_plus_v2.py 383-455)
-- ===========================================================================

/-- The drawdown loop of `calculate_doi`.  Rows are `(forecast, week_end)`
pairs; rows with a missing date, a past date, or a non-positive forecast are
skipped without consuming inventory.  At the first counted week where
`inventory - cumulative - forecast ≤ 0` the loop stops and returns the runout
date `week_start + ⌊clamp(inventory_at_start / forecast) * 7⌋` (the fraction
is clamped to `[0, 1]`; adding a fractional `timedelta` to a `date` keeps
whole days only). -/
def doiLoop {α : Type} [LinearOrderedField α] [FloorRing α]
    (rows : List (α × Option ℤ)) (inventory : α) (today : ℤ) (cumulative : α) :
    Option ℤ :=
  match rows with
  | [] => none
  | (_, none) :: rest => doiLoop rest inventory today cumulative
  | (forecast, some week_end) :: rest =>
    if week_end < today then doiLoop rest inventory today cumulative
    else if forecast ≤ 0 then doiLoop rest inventory today cumulative
    else
      if inventory - (cumulative + forecast) ≤ 0 then
        some ((week_end - 7)
          + Int.floor ((max 0 (min 1 ((inventory - cumulative) / forecast))) * (7:α)))
      else doiLoop rest inventory today (cumulative + forecast)

/-- Result of `calculate_doi`: `{'doi_days': ..., 'runout_date': ...}`. -/
structure DoiResult where
  doi_days : ℤ
  runout_date : Option ℤ
deriving DecidableEq, Repr

/-- `calculate_doi`: iterative inventory drawdown.  If the loop finds a runout
week, `DOI = max(0, runout - today)`.  Otherwise the fallback estimates
`runout = today + ⌊7 * inventory / avg_weekly⌋` from the average positive
forecast, or `today + 365` when there is none. -/
def calculate_doi {α : Type} [LinearOrderedField α] [FloorRing α]
    (forecasts : List α) (week_dates : List (Option ℤ)) (inventory : α)
    (today : ℤ) : DoiResult :=
  if forecasts = [] ∨ week_dates = [] then ⟨0, none⟩
  else
    match doiLoop (forecasts.zip week_dates) inventory today 0 with
    | some runout => ⟨max 0 (runout - today), some runout⟩
    | none =>
      let positives := forecasts.filter (fun f => 0 < f)
      let avg_weekly := positives.sum / (max 1 (positives.length) : α)
      let runout :=
        if 0 < avg_weekly then today + Int.floor (7 * (inventory / avg_weekly))
        else today + 365
      ⟨max 0 (runout - today), some runout⟩

/-- The row walk of the V2 `_calc_inventory_tracking_exact`: rows are
`(week_end, final_adj_forecast)` (already restricted to future, non-NaN
rows).  Every row's forecast is consumed; a fractional runout date is
recorded at each week where `remaining ≤ 0`, `start_of_week > 0` and
`forecast > 0`, and the first such date is kept.  The fraction
`start_of_week / forecast` is NOT clamped, and the runout date keeps its
fractional part (Timestamp arithmetic). -/
def v2TrackingLoop {α : Type} [LinearOrderedField α]
    (rows : List (ℤ × Option α)) (initial_inventory : α) (cumulative : α)
    (runout_date : Option α) : Option α :=
  match rows with
  | [] => runout_date
  | (_, none) :: rest => v2TrackingLoop rest initial_inventory cumulative runout_date
  | (week_date, some forecast) :: rest =>
    if initial_inventory - (cumulative + forecast) ≤ 0
        ∧ 0 < initial_inventory - (cumulative + forecast) + forecast ∧ 0 < forecast then
      v2TrackingLoop rest initial_inventory (cumulative + forecast)
        (match runout_date with
         | none => some ((week_date : α) - 7
            + ((initial_inventory - (cumulative + forecast) + forecast) / forecast) * 7)
         | some r0 => some r0)
    else v2TrackingLoop rest initial_inventory (cumulative + forecast) runout_date

/-- `_calc_inventory_tracking_exact` (V2, 18+ month class): selects the
future rows with a present forecast, walks them, and returns
`(runout_date, DOI)` with `DOI = max(0, ⌊runout - today⌋)` when a runout was
recorded, `max(0, 365)` otherwise, and `(none, 0)` when no forecast rows
exist. -/
def calcInventoryTrackingExact {α : Type} [LinearOrderedField α] [FloorRing α]
    (rows : List (ℤ × Option α)) (initial_inventory : α) (today : ℤ) :
    Option α × ℤ :=
  let forecast_rows := rows.filter (fun p => today ≤ p.1 ∧ p.2 ≠ none)
  if forecast_rows = [] then (none, 0)
  else
    let runout := v2TrackingLoop forecast_rows initial_inventory 0 none
    let doi : ℤ := match runout with
      | some r => Int.floor (r - (today : α))
      | none => 365
    (runout, max 0 doi)

/-- The 18+ month runout computation as the claim words it (for comparison
with `calcInventoryTrackingExact`): walking the future forecast rows in
order, the FIRST week where remaining inventory is `≤ 0` determines the
runout, with unclamped `fraction = inventory_at_start / forecast` and
`runout = week_start + fraction * 7`; `DOI = max(0, ⌊runout - today⌋)`. -/
def specDoiLoopV2 {α : Type} [LinearOrderedField α]
    (rows : List (ℤ × Option α)) (initial_inventory : α) (cumulative : α) :
    Option α :=
  match rows with
  | [] => none
  | (_, none) :: rest => specDoiLoopV2 rest initial_inventory cumulative
  | (week_date, some forecast) :: rest =>
    if initial_inventory - (cumulative + forecast) ≤ 0 then
      some ((week_date : α) - 7 + ((initial_inventory - cumulative) / forecast) * 7)
    else specDoiLoopV2 rest initial_inventory (cumulative + forecast)

/-- Claim-side counterpart of the V2 tracking function. -/
def specDoiV2 {α : Type} [LinearOrderedField α] [FloorRing α]
    (rows : List (ℤ × Option α)) (initial_inventory : α) (today : ℤ) :
    Option α × ℤ :=
  let forecast_rows := rows.filter (fun p => today ≤ p.1 ∧ p.2 ≠ none)
  match specDoiLoopV2 forecast_rows initial_inventory 0 with
  | some r => (some r, max 0 (Int.floor (r - (today : α))))
  | none => (none, 365)

lemma v2TrackingLoop_keeps_first {α : Type} [LinearOrderedField α]
    (rows : List (ℤ × Option α)) (initial cum : α) (r0 : α) :
    v2TrackingLoop rows initial cum (some r0) = some r0 := by
  induction rows generalizing cum with
  | nil => rfl
  | cons head rest ih =>
    obtain ⟨wd, fc⟩ := head
    cases fc with
    | none => exact ih cum
    | some f =>
      unfold v2TrackingLoop
      by_cases hc : initial - (cum + f) ≤ 0 ∧ 0 < initial - (cum + f) + f ∧ 0 < f
      · rw [if_pos hc]
        exact ih (cum + f)
      · rw [if_neg hc]
        exact ih (cum + f)

/-- C3 (amended): the runout-point computation.  On the 0-6m/6-18m path
(`calculate_doi`) the first counted future week with a positive forecast
where remaining inventory drops to `≤ 0` yields runout
`week_start + ⌊clamp(inventory_at_start/forecast) * 7⌋` — the fraction IS
clamped to [0,1] — and `DOI = max(0, runout - today)`; skipped weeks consume
nothing.  On the 18+ month V2 path the fraction `start_of_week/forecast` is
NOT clamped, but a runout is recorded only at a week where additionally
`start_of_week > 0` and `forecast > 0`; the first recorded date is kept, and
`DOI = max(0, ⌊runout - today⌋)`.  (With zero or negative starting inventory
the V2 path records no runout at all and reports DOI 365 — see the
counterexample.) -/
theorem C3_doi_runout_paths {α : Type} [LinearOrderedField α] [FloorRing α] :
    (∀ (f : α) (we : ℤ) (rest : List (α × Option ℤ)) (inventory cum : α) (today : ℤ),
      today ≤ we → 0 < f → inventory - (cum + f) ≤ 0 →
      doiLoop ((f, some we) :: rest) inventory today cum
        = some ((we - 7) + Int.floor ((max 0 (min 1 ((inventory - cum) / f))) * (7:α))))
    ∧ (∀ (f : α) (we : ℤ) rest (inventory cum : α) (today : ℤ),
      today ≤ we → 0 < f → ¬(inventory - (cum + f) ≤ 0) →
      doiLoop ((f, some we) :: rest) inventory today cum
        = doiLoop rest inventory today (cum + f))
    ∧ (∀ (f : α) (we : ℤ) rest (inventory cum : α) (today : ℤ),
      we < today ∨ f ≤ 0 →
      doiLoop ((f, some we) :: rest) inventory today cum
        = doiLoop rest inventory today cum)
    ∧ (∀ (forecasts : List α) (week_dates : List (Option ℤ)) (inventory : α)
        (today runout : ℤ),
      doiLoop (forecasts.zip week_dates) inventory today 0 = some runout →
      forecasts ≠ [] → week_dates ≠ [] →
      calculate_doi forecasts week_dates inventory today
        = ⟨max 0 (runout - today), some runout⟩)
    ∧ (∀ (we : ℤ) (f : α) (rest : List (ℤ × Option α)) (initial cum : α),
      initial - (cum + f) ≤ 0 → 0 < initial - cum → 0 < f →
      v2TrackingLoop ((we, some f) :: rest) initial cum none
        = some ((we : α) - 7 + ((initial - cum) / f) * 7))
    ∧ (∀ (rows : List (ℤ × Option α)) (initial : α) (today : ℤ) (r : α),
      v2TrackingLoop (rows.filter (fun p => today ≤ p.1 ∧ p.2 ≠ none)) initial 0 none
        = some r →
      rows.filter (fun p => today ≤ p.1 ∧ p.2 ≠ none) ≠ [] →
      calcInventoryTrackingExact rows initial today
        = (some r, max 0 (Int.floor (r - (today : α))))) := by
  refine ⟨fun f we rest inventory cum today h1 h2 h3 => ?_,
    fun f we rest inventory cum today h1 h2 h3 => ?_,
    fun f we rest inventory cum today h => ?_,
    fun forecasts week_dates inventory today runout hloop hf hw => ?_,
    fun we f rest initial cum h1 h2 h3 => ?_,
    fun rows initial today r hloop hne => ?_⟩
  · unfold doiLoop
    rw [if_neg (by omega), if_neg (not_le.mpr h2), if_pos h3]
  · conv_lhs => unfold doiLoop
    rw [if_neg (by omega), if_neg (not_le.mpr h2), if_neg h3]
  · conv_lhs => unfold doiLoop
    rcases h with h | h
    · rw [if_pos h]
    · by_cases hlt : we < today
      · rw [if_pos hlt]
      · rw [if_neg hlt, if_pos h]
  · unfold calculate_doi
    rw [if_neg (by simp [hf, hw]), hloop]
  · unfold v2TrackingLoop
    have hstart : initial - (cum + f) + f = initial - cum := by ring
    rw [if_pos ⟨h1, by rw [hstart]; exact h2, h3⟩, hstart]
    exact v2TrackingLoop_keeps_first rest initial (cum + f) _
  · unfold calcInventoryTrackingExact
    rw [if_neg (by simpa using hne), hloop]

/-- C3 counterexample: on the 18+ month V2 path with starting inventory 0,
one future week `(week_end 7, forecast 50)` and `today = 0`, the first week
already has `remaining = -50 ≤ 0`, so per the claim the runout point is
`week_start + (0/50)*7 = 0` and DOI 0; the code records NO runout (because
`start_of_week > 0` fails) and reports the no-runout default DOI 365. -/
theorem C3_counterexample :
    calcInventoryTrackingExact [((7:ℤ), some (50:ℚ))] 0 0 = (none, 365)
    ∧ specDoiV2 [((7:ℤ), some (50:ℚ))] 0 0 = (some 0, 0)
    ∧ ((none, 365) : Option ℚ × ℤ) ≠ (some 0, 0) := by
  have hfil : List.filter (fun p => decide ((0:ℤ) ≤ p.1 ∧ p.2 ≠ none))
      [((7:ℤ), some (50:ℚ))] = [((7:ℤ), some (50:ℚ))] := rfl
  refine ⟨?_, ?_, by simp⟩
  · have hloop : v2TrackingLoop [((7:ℤ), some (50:ℚ))] (0:ℚ) 0 none = none := by
      unfold v2TrackingLoop
      rw [if_neg (by norm_num)]
      rfl
    unfold calcInventoryTrackingExact
    rw [hfil, if_neg (by simp), hloop]
    simp
  · have hloop : specDoiLoopV2 [((7:ℤ), some (50:ℚ))] (0:ℚ) 0 = some 0 := by
      unfold specDoiLoopV2
      rw [if_pos (by norm_num)]
      norm_num
    unfold specDoiV2
    rw [hfil]
    simp only [hloop]
    norm_num

/-- C3 witness: the six conjuncts of `C3_doi_runout_paths` at concrete
rational inputs — a clamped tps runout (`20/50` of a week, `⌊2.8⌋ = 2` days
into the week starting at day 0), a surviving week, a skipped week, the tps
DOI assembly, an unclamped V2 runout, and the V2 assembly. -/
theorem C3_witness :
    (doiLoop [((50:ℚ), some 7)] 20 0 0 = some 2)
    ∧ (doiLoop [((50:ℚ), some 7), (50, some 14)] 80 0 0
        = doiLoop [((50:ℚ), some 14)] 80 0 50)
    ∧ (doiLoop [((0:ℚ), some 7), (50, some 14)] 80 0 0
        = doiLoop [((50:ℚ), some 14)] 80 0 0)
    ∧ (calculate_doi [(50:ℚ)] [some 7] 20 0 = ⟨2, some 2⟩)
    ∧ (v2TrackingLoop [((7:ℤ), some (50:ℚ))] 20 0 none = some ((14:ℚ)/5))
    ∧ (calcInventoryTrackingExact [((7:ℤ), some (50:ℚ))] 20 0
        = (some ((14:ℚ)/5), 2)) := by
  have h1 := (C3_doi_runout_paths (α := ℚ)).1 50 7 [] 20 0 0 (by norm_num) (by norm_num) (by norm_num)
  have h2 := (C3_doi_runout_paths (α := ℚ)).2.1 50 7 [(50, some 14)] 80 0 0 (by norm_num) (by norm_num) (by norm_num)
  have h3 := (C3_doi_runout_paths (α := ℚ)).2.2.1 0 7 [(50, some 14)] 80 0 0 (Or.inr le_rfl)
  have h5 := (C3_doi_runout_paths (α := ℚ)).2.2.2.2.1 7 50 [] 20 0 (by norm_num) (by norm_num) (by norm_num)
  have h5e : ((7:ℤ) : ℚ) - 7 + ((20:ℚ) - 0) / 50 * 7 = 14/5 := by norm_num
  have h1e : some ((7 - 7 : ℤ) + Int.floor ((max 0 (min 1 (((20:ℚ) - 0) / 50))) * (7:ℚ)))
      = some (2:ℤ) := by
    norm_num [max_def, min_def]
  have h4 := (C3_doi_runout_paths (α := ℚ)).2.2.2.1 [50] [some 7] 20 0 2
    (by rw [show ([(50:ℚ)].zip [some (7:ℤ)]) = [((50:ℚ), some (7:ℤ))] from rfl, h1, h1e])
    (by simp) (by simp)
  have hfil : List.filter (fun p => decide ((0:ℤ) ≤ p.1 ∧ p.2 ≠ none))
      [((7:ℤ), some (50:ℚ))] = [((7:ℤ), some (50:ℚ))] := rfl
  have h6 := (C3_doi_runout_paths (α := ℚ)).2.2.2.2.2 [((7:ℤ), some (50:ℚ))] 20 0 (14/5)
    (by rw [hfil, h5, h5e]) (by rw [hfil]; simp)
  refine ⟨by rw [h1, h1e], by rw [h2]; norm_num, h3,
    by rw [h4]; norm_num, by rw [h5, h5e], by rw [h6]; norm_num⟩

-- ===========================================================================
-- Column N sales velocity (algorithms_tps.py 339-455) and Column O adjusted
-- forecast (463-491)
-- ===========================================================================

/-- `safe_get(values, i)`: the value at `i` when in bounds and strictly
positive, else 0. -/
def safe_get (values : List ℚ) (i : ℤ) : ℚ :=
  if 0 ≤ i ∧ i < (values.length : ℤ) then
    if 0 < values.getD i.toNat 0 then values.getD i.toNat 0 else 0
  else 0

/-- `safe_sum_range(values, start, end)`: sum of `safe_get` over indices from
`max(0, start)` to `min(len(values), end + 1))` (exclusive). -/
def safe_sum_range (values : List ℚ) (start stop : ℤ) : ℚ :=
  ((List.range (min (values.length : ℤ) (stop + 1) - max 0 start).toNat).map
    (fun k => safe_get values (max 0 start + (k : ℤ)))).sum

/-- The weighted daily-average blend of the Column N formula:
`0.25 * v/7 + 0.25 * sum(2wk)/14 + 0.25 * sum(4wk)/28 + 0.25 * sum(6wk)/42`,
computed identically for the current-year (I) and prior-year (L) columns. -/
def velocityBlend (values : List ℚ) (idx : ℤ) : ℚ :=
  (1/4) * (safe_get values idx / 7)
  + (1/4) * (safe_sum_range values (idx - 1) idx / 14)
  + (1/4) * (safe_sum_range values (idx - 3) idx / 28)
  + (1/4) * (safe_sum_range values (idx - 5) idx / 42)

/-- `calculate_column_n_velocity`: Column N.  `None` for rows without a date
or at/after today; for historical rows, `current/prior - 1` when the
prior-year blend is strictly positive, else 0.  The prior-year column is
padded with zeros to the length of the current-year column first. -/
def calculate_column_n_velocity (I L : List ℚ) (week_dates : List (Option ℤ))
    (today : ℤ) : List (Option ℚ) :=
  let L2 := L ++ List.replicate (I.length - L.length) 0
  (List.range I.length).map (fun idx =>
    match (if idx < week_dates.length then week_dates.getD idx none else none) with
    | none => none
    | some week_end =>
      if today ≤ week_end then none
      else
        let current_avg := velocityBlend I (idx : ℤ)
        let prior_avg := velocityBlend L2 (idx : ℤ)
        some (if 0 < prior_avg then current_avg / prior_avg - 1 else 0))

/-- `calculate_sales_velocity_adjustment`: B60, the LAST non-empty value of
Column N (0 when every entry is empty). -/
def calculate_sales_velocity_adjustment (I L : List ℚ)
    (week_dates : List (Option ℤ)) (today : ℤ) : ℚ :=
  (calculate_column_n_velocity I L week_dates today).foldl
    (fun acc v => match v with | some x => x | none => acc) 0

/-- `calculate_adj_forecast`: Column O,
`L * (1 + market_adjustment + sales_velocity_adjustment * velocity_weight)`
for weeks at or after today, 0 (blank) for past weeks. -/
def calculate_adj_forecast (prior_year_smooth : List ℚ)
    (week_dates : List (Option ℤ)) (today : ℤ)
    (market_adjustment sales_velocity_adjustment velocity_weight : ℚ) : List ℚ :=
  (prior_year_smooth.zip week_dates).map (fun p =>
    match p.2 with
    | some week_end =>
      if today ≤ week_end then
        p.1 * (1 + market_adjustment + sales_velocity_adjustment * velocity_weight)
      else 0
    | none => 0)

/-- The inline Column O computation of `calculate_forecast_18m_plus`
(lines 780-785): `extended_L[i] * adjustment` for extended dates at or after
today, else 0. -/
def extendedOColumn (L : List ℚ) (dates : List (Option ℤ)) (today : ℤ)
    (adjustment : ℚ) : List ℚ :=
  (List.range dates.length).map (fun i =>
    match dates.getD i none with
    | some week_end => if today ≤ week_end then L.getD i 0 * adjustment else 0
    | none => 0)

lemma foldl_last_some (l : List (Option ℚ)) (acc : ℚ) :
    l.foldl (fun acc v => match v with | some x => x | none => acc) acc
      = (l.filterMap id).getLastD acc := by
  induction l generalizing acc with
  | nil => rfl
  | cons head rest ih =>
    cases head with
    | none => simpa using ih acc
    | some x =>
      rw [show (List.filterMap id (some x :: rest)) = x :: List.filterMap id rest from rfl,
        List.getLastD_cons, List.foldl_cons]
      exact ih x

/-- C5: sales-velocity adjustment chain.  (1) For every historical week (a
present date strictly before today) the Column N value is
`current/prior - 1` when the prior-year blend is strictly positive and 0
otherwise, and every non-historical row is empty; (2) the single adjustment
is the most recent non-empty value of Column N, defaulting to 0; (3) a future
week's Column O adjusted forecast equals
`prior_year_smooth[week] * (1 + velocity_weight * velocity_adjustment + market_adjustment)`,
both in the standalone `calculate_adj_forecast` and in the 18m+ inline
Column O. -/
theorem C5_velocity_adjustment :
    (∀ (I L : List ℚ) (wd : List (Option ℤ)) (today : ℤ) (idx : ℕ) (d : ℤ),
      idx < I.length → idx < wd.length → wd.getD idx none = some d → d < today →
      (calculate_column_n_velocity I L wd today).getD idx none
        = some (if 0 < velocityBlend (L ++ List.replicate (I.length - L.length) 0) (idx : ℤ)
            then velocityBlend I (idx : ℤ)
              / velocityBlend (L ++ List.replicate (I.length - L.length) 0) (idx : ℤ) - 1
            else 0))
    ∧ (∀ (I L : List ℚ) (wd : List (Option ℤ)) (today : ℤ) (idx : ℕ),
      idx < I.length →
      (idx < wd.length → wd.getD idx none = none → (calculate_column_n_velocity I L wd today).getD idx none = none)
      ∧ (∀ d : ℤ, idx < wd.length → wd.getD idx none = some d → today ≤ d →
          (calculate_column_n_velocity I L wd today).getD idx none = none))
    ∧ (∀ (I L : List ℚ) (wd : List (Option ℤ)) (today : ℤ),
      calculate_sales_velocity_adjustment I L wd today
        = ((calculate_column_n_velocity I L wd today).filterMap id).getLastD 0)
    ∧ (∀ (smooth : List ℚ) (wd : List (Option ℤ)) (today : ℤ) (ma va vw : ℚ),
      calculate_adj_forecast smooth wd today ma va vw
        = (smooth.zip wd).map (fun p =>
            match p.2 with
            | some we => if today ≤ we then p.1 * (1 + vw * va + ma) else 0
            | none => 0))
    ∧ (∀ (L : List ℚ) (dates : List (Option ℤ)) (today : ℤ) (ma va vw : ℚ)
        (i : ℕ) (we : ℤ),
      i < dates.length → dates.getD i none = some we → today ≤ we →
      (extendedOColumn L dates today (1 + ma + va * vw)).getD i 0
        = L.getD i 0 * (1 + vw * va + ma)) := by
  have hmapD : ∀ (n i : ℕ) (f : ℕ → Option ℚ), i < n →
      (((List.range n).map f).getD i none) = f i := by
    intro n i f hi
    rw [List.getD_eq_getElem?_getD, List.getElem?_map, List.getElem?_range hi]
    rfl
  refine ⟨fun I L wd today idx d h1 h2 h3 h4 => ?_,
    fun I L wd today idx h1 => ⟨fun h2 h3 => ?_, fun d h2 h3 h4 => ?_⟩,
    fun I L wd today => foldl_last_some _ 0,
    fun smooth wd today ma va vw => ?_,
    fun L dates today ma va vw i we h1 h2 h3 => ?_⟩
  · unfold calculate_column_n_velocity
    rw [hmapD _ _ _ h1, if_pos h2, h3]
    simp only
    rw [if_neg (not_le.mpr h4)]
  · unfold calculate_column_n_velocity
    rw [hmapD _ _ _ h1, if_pos h2, h3]
  · unfold calculate_column_n_velocity
    rw [hmapD _ _ _ h1, if_pos h2, h3]
    simp only
    rw [if_pos h4]
  · unfold calculate_adj_forecast
    apply List.map_congr_left
    intro p _
    match p with
    | (v, none) => rfl
    | (v, some we) =>
      simp only
      by_cases hwe : today ≤ we
      · rw [if_pos hwe, if_pos hwe]
        ring_nf
      · rw [if_neg hwe, if_neg hwe]
  · unfold extendedOColumn
    have hmapD0 : ∀ (n i : ℕ) (f : ℕ → ℚ), i < n →
        (((List.range n).map f).getD i 0) = f i := by
      intro n i f hi
      rw [List.getD_eq_getElem?_getD, List.getElem?_map, List.getElem?_range hi]
      rfl
    rw [hmapD0 _ _ _ h1, h2]
    simp only
    rw [if_pos h3]
    ring_nf

/-- C5 witness: the hypothesis-bearing conjuncts of `C5_velocity_adjustment`
at concrete inputs: a historical week (`date 0 < today 5`) where current and
prior blends coincide so the velocity is 0; an empty-date row; a future row;
and a future-week Column O value. -/
theorem C5_witness :
    ((calculate_column_n_velocity [7] [7] [some 0] 5).getD 0 none = some 0)
    ∧ ((calculate_column_n_velocity [7] [7] [none] 5).getD 0 none = none)
    ∧ ((calculate_column_n_velocity [7] [7] [some 9] 5).getD 0 none = none)
    ∧ ((extendedOColumn [10] [some 9] 5 (1 + (1/20) + (1/10) * (3/20))).getD 0 0
        = 10 * (1 + (3/20) * (1/10) + (1/20))) := by
  have h1 := (C5_velocity_adjustment).1 [7] [7] [some 0] 5 0 0
    (by norm_num) (by norm_num) rfl (by norm_num)
  have h2 := ((C5_velocity_adjustment).2.1 [7] [7] [none] 5 0 (by norm_num)).1
    (by norm_num) rfl
  have h3 := ((C5_velocity_adjustment).2.1 [7] [7] [some 9] 5 0 (by norm_num)).2 9
    (by norm_num) rfl (by norm_num)
  have h4 := (C5_velocity_adjustment).2.2.2.2 [10] [some 9] 5 (1/20) (1/10) (3/20)
    0 9 (by norm_num) rfl (by norm_num)
  refine ⟨?_, h2, h3, h4⟩
  rw [h1]
  have hl : ([(7:ℚ)] ++ List.replicate ([(7:ℚ)].length - [(7:ℚ)].length) 0) = [7] := rfl
  rw [hl]
  have hsg : safe_get [(7:ℚ)] 0 = 7 := by norm_num [safe_get]
  have hss : ∀ a : ℤ, a ≤ 0 → safe_sum_range [(7:ℚ)] a 0 = 7 := by
    intro a ha
    unfold safe_sum_range
    rw [max_eq_left ha]
    rw [show (min (([(7:ℚ)].length : ℤ)) ((0:ℤ) + 1) - 0).toNat = 1 by norm_num]
    rw [show List.range 1 = [0] from rfl]
    simp [hsg]
  have hb : velocityBlend [(7:ℚ)] 0 = 23/48 := by
    unfold velocityBlend
    rw [hsg, show (0:ℤ) - 1 = -1 from rfl, show (0:ℤ) - 3 = -3 from rfl,
      show (0:ℤ) - 5 = -5 from rfl,
      hss (-1) (by norm_num), hss (-3) (by norm_num), hss (-5) (by norm_num)]
    norm_num
  simp only [Nat.cast_zero]
  rw [hb]
  norm_num

-- ===========================================================================
-- Settings dict and the main 18m+ forecast: `calculate_forecast_18m_plus`
-- (algorithms_tps.py 666-847)
-- ===========================================================================

/-- The settings dictionary, modelled as a record of optional entries — one
per key the engine ever reads or writes.  A `none` field is an absent key, so
`settings.get(key, default)` is `field.getD default`. -/
structure SettingsDict where
  amazon_doi_goal : Option ℤ
  inbound_lead_time : Option ℤ
  manufacture_lead_time : Option ℤ
  market_adjustment : Option ℚ
  sales_velocity_adjustment : Option ℚ
  velocity_weight : Option ℚ
  auto_velocity : Option Bool
  total_inventory : Option ℤ
  fba_available : Option ℤ
  calculated_velocity_adjustment : Option ℚ
deriving DecidableEq, Repr

/-- `DEFAULT_SETTINGS` (algorithms_tps.py 87-98): goal 93, lead times 30/7,
market adjustment 0.05, velocity adjustment 0.10, velocity weight 0.15; the
other keys are absent. -/
def DEFAULT_SETTINGS : SettingsDict :=
  ⟨some 93, some 30, some 7, some (1/20), some (1/10), some (3/20), none, none, none, none⟩

/-- `dict.update`: fields present in `c` overwrite those of `s`. -/
def settingsUpdate (s c : SettingsDict) : SettingsDict :=
  ⟨c.amazon_doi_goal <|> s.amazon_doi_goal,
   c.inbound_lead_time <|> s.inbound_lead_time,
   c.manufacture_lead_time <|> s.manufacture_lead_time,
   c.market_adjustment <|> s.market_adjustment,
   c.sales_velocity_adjustment <|> s.sales_velocity_adjustment,
   c.velocity_weight <|> s.velocity_weight,
   c.auto_velocity <|> s.auto_velocity,
   c.total_inventory <|> s.total_inventory,
   c.fba_available <|> s.fba_available,
   c.calculated_velocity_adjustment <|> s.calculated_velocity_adjustment⟩

/-- `CALIBRATION_FACTORS.get(key, 1.0)` (algorithms_tps.py 105-109). -/
def CALIBRATION_FACTORS (key : String) : ℚ :=
  if key = "0-6m" then 41/50 else if key = "6-18m" then 1 else if key = "18m+" then 1 else 1

/-- One entry of the returned `forecasts` list:
`{'week_end': ..., 'forecast': ..., 'units_needed': ...}`. -/
structure ForecastRow where
  week_end : ℤ
  forecast : ℚ
  units_needed : ℚ
deriving DecidableEq, Repr

/-- The full result dict of `calculate_forecast_18m_plus` (lines 827-847).
`settings` is the (mutated) settings dict stored under `'settings'` — the
same object the caller passed in. -/
structure F18Full where
  units_to_make : ℤ
  doi_total_days : ℤ
  doi_fba_days : ℤ
  runout_date_total : Option ℤ
  runout_date_fba : Option ℤ
  lead_time_days : ℤ
  total_units_needed : ℚ
  sales_velocity_adjustment : ℚ
  adjustment_factor : ℚ
  forecasts : List ForecastRow
  settings : SettingsDict
deriving DecidableEq, Repr

/-- Outcome of `calculate_forecast_18m_plus`.  `early settings` is the short
dict `{'units_to_make': 0, 'doi_total_days': 0, 'doi_fba_days': 0,
'forecasts': [], 'settings': settings}` returned for empty input (it lacks
the other keys).  `crash` models the `TypeError` raised when the last row's
week date is unparseable (`None + timedelta`). -/
inductive F18Result where
  | crash
  | early (settings : SettingsDict)
  | full (r : F18Full)
deriving DecidableEq, Repr

/-- Date-keyed dict lookup with Python overwrite semantics: the LAST binding
of a key wins. -/
def dictGetLast (pairs : List (ℤ × ℚ)) (k : ℤ) : Option ℚ :=
  (pairs.reverse.find? (fun p => decide (p.1 = k))).map (·.2)

/-- `i_value_lookup`: Column I values keyed by parseable week-end date. -/
def iValueLookup (units_data : List UnitsRow) (final_smooth_85 : List ℚ) :
    List (ℤ × ℚ) :=
  (units_data.zip final_smooth_85).filterMap (fun p => p.1.week_end.map (fun d => (d, p.2)))

/-- Extended week dates: the original dates followed by 104 future weeks
(7-day steps from the last date), each appended only if not already present. -/
def buildExtendedDates (week_dates : List (Option ℤ)) (last_date : ℤ) :
    List (Option ℤ) :=
  (List.range' 1 104).foldl (fun acc i =>
    if acc.contains (some (last_date + 7 * (i : ℤ))) then acc
    else acc ++ [some (last_date + 7 * (i : ℤ))]) week_dates

/-- Column J over the extended dates: the Column I value of the same week 52
weeks (364 days) earlier, 0 when absent. -/
def extendedJ (extended_dates : List (Option ℤ)) (lookup : List (ℤ × ℚ)) : List ℚ :=
  extended_dates.map (fun wd =>
    match wd with
    | some week_end => (dictGetLast lookup (week_end - 364)).getD 0
    | none => 0)

/-- Column K: rolling 2-week trailing max of J (`max(J[i-2], J[i-1])`), the
raw J value for the first two rows. -/
def extendedK (J : List ℚ) : List ℚ :=
  (List.range J.length).map (fun i =>
    if i < 2 then J.getD i 0 else max (J.getD (i - 2) 0) (J.getD (i - 1) 0))

/-- Column P over the extended series: `(O[i] + O[i+1]) / 2` for weeks within
`[today, today + 365]`, with the last element falling back to itself; 0
outside the window or without a date. -/
def extendedPColumn (O : List ℚ) (dates : List (Option ℤ)) (today : ℤ) : List ℚ :=
  (List.range O.length).map (fun i =>
    match (if i < dates.length then dates.getD i none else none) with
    | some week_end =>
      if today ≤ week_end ∧ week_end ≤ today + 365 then
        (O.getD i 0 + (if i + 1 < O.length then O.getD (i + 1) 0 else O.getD i 0)) / 2
      else 0
    | none => 0)

/-- `calculate_forecast_18m_plus(units_data, today, settings)`: the complete
18m+ chain G → H → I → J → K → L → N → O → P → AC → AE → DOI.  `today` is the
resolved current date (the caller always passes one).  The returned
`settings` field carries the in-place mutation of the caller's dict
(`settings['calculated_velocity_adjustment'] = velocity_adj`). -/
def calculate_forecast_18m_plus (units_data : List UnitsRow) (today : ℤ)
    (settings? : Option SettingsDict) : F18Result :=
  let settings := settings?.getD DEFAULT_SETTINGS
  match units_data with
  | [] => .early settings
  | _ :: _ =>
    let n := units_data.length
    let week_dates := units_data.map (·.week_end)
    let final_curve := calculate_units_final_curve units_data 10
    let final_smooth := calculate_units_final_smooth final_curve n
    let final_smooth_85 := calculate_units_final_smooth_85 final_smooth
    let lookup := iValueLookup units_data final_smooth_85
    match (week_dates.getLast?).getD none with
    | none => .crash
    | some last_date =>
      let extended_dates := buildExtendedDates week_dates last_date
      let eJ := extendedJ extended_dates lookup
      let eK := extendedK eJ
      let eL := (List.range eK.length).map (fun i =>
        weighted_average (eK.map some) [1, 3, 5, 7, 5, 3, 1] i)
      let velocity_adj :=
        if (settings.auto_velocity).getD true then
          calculate_sales_velocity_adjustment final_smooth_85 (eL.take n) week_dates today
        else (settings.sales_velocity_adjustment).getD (1/10)
      let settings2 := { settings with calculated_velocity_adjustment := some velocity_adj }
      let adjustment := 1 + (settings2.market_adjustment).getD (1/20)
        + velocity_adj * (settings2.velocity_weight).getD (3/20)
      let eO := extendedOColumn eL extended_dates today adjustment
      let eP := extendedPColumn eO extended_dates today
      let lead_time_days := (settings2.amazon_doi_goal).getD 93
        + (settings2.inbound_lead_time).getD 30 + (settings2.manufacture_lead_time).getD 7
      let weekly_needed := calculate_weekly_units_needed eP extended_dates today lead_time_days
      let total_inventory : ℤ := (settings2.total_inventory).getD 0
      let fba_available : ℤ := (settings2.fba_available).getD 0
      let calibrated := weekly_needed.map (fun w => w * CALIBRATION_FACTORS "18m+")
      let doi_total := calculate_doi eP extended_dates (total_inventory : ℚ) today
      let doi_fba := calculate_doi eP extended_dates (fba_available : ℚ) today
      .full {
        units_to_make := calculate_units_to_make calibrated total_inventory
        doi_total_days := doi_total.doi_days
        doi_fba_days := doi_fba.doi_days
        runout_date_total := doi_total.runout_date
        runout_date_fba := doi_fba.runout_date
        lead_time_days := lead_time_days
        total_units_needed := calibrated.sum
        sales_velocity_adjustment := velocity_adj
        adjustment_factor := adjustment
        forecasts := ((extended_dates.zip (eP.zip weekly_needed)).filterMap (fun t =>
          match t.1 with
          | some d => if today ≤ d then some ⟨d, t.2.1, t.2.2⟩ else none
          | none => none)).take 52
        settings := settings2 }

-- ===========================================================================
-- Generic evaluation lemmas for the extended-series columns
-- ===========================================================================

lemma getD_map_range {β : Type} (f : ℕ → β) (n i : ℕ) (d : β) (h : i < n) :
    ((List.range n).map f).getD i d = f i := by
  rw [List.getD_eq_getElem?_getD, List.getElem?_map, List.getElem?_range h]
  rfl

lemma foldl_extend_of_not_mem (ld : ℤ) (l : List ℕ) :
    ∀ (acc : List (Option ℤ)),
    (∀ i ∈ l, (some (ld + 7 * (i : ℤ))) ∉ acc) →
    l.Nodup →
    l.foldl (fun acc i =>
      if acc.contains (some (ld + 7 * (i : ℤ))) then acc
      else acc ++ [some (ld + 7 * (i : ℤ))]) acc
      = acc ++ l.map (fun i : ℕ => some (ld + 7 * (i : ℤ))) := by
  induction l with
  | nil => intro acc _ _; simp
  | cons head tail ih =>
    intro acc hmem hpw
    have hhead : acc.contains (some (ld + 7 * (head : ℤ))) = false := by
      simpa using hmem head (List.mem_cons_self _ _)
    rw [List.foldl_cons, hhead]
    simp only [Bool.false_eq_true, if_false]
    rw [ih (acc ++ [some (ld + 7 * (head : ℤ))]) ?hm
      (List.Nodup.sublist (List.sublist_cons_self _ _) hpw)]
    · rw [List.map_cons, List.append_assoc]
      rfl
    case hm =>
      intro i hi
      rw [List.mem_append]
      push_neg
      refine ⟨hmem i (List.mem_cons_of_mem _ hi), ?_⟩
      have hne : head ≠ i := (List.pairwise_cons.mp hpw).1 i hi
      simp
      omega

set_option maxRecDepth 2000 in
lemma buildExtendedDates_eq (wd : List (Option ℤ)) (ld : ℤ)
    (h : ∀ i ∈ List.range' 1 104, (some (ld + 7 * (i : ℤ))) ∉ wd) :
    buildExtendedDates wd ld
      = wd ++ (List.range' 1 104).map (fun i : ℕ => some (ld + 7 * (i : ℤ))) := by
  unfold buildExtendedDates
  exact foldl_extend_of_not_mem ld (List.range' 1 104) wd h (List.nodup_range' 1 104)

lemma extendedJ_length (d : List (Option ℤ)) (l : List (ℤ × ℚ)) :
    (extendedJ d l).length = d.length := by
  simp [extendedJ]

lemma extendedK_length (J : List ℚ) : (extendedK J).length = J.length := by
  simp [extendedK]

lemma extendedOColumn_length (L : List ℚ) (d : List (Option ℤ)) (today : ℤ) (adj : ℚ) :
    (extendedOColumn L d today adj).length = d.length := by
  simp [extendedOColumn]

lemma extendedPColumn_length (O : List ℚ) (d : List (Option ℤ)) (today : ℤ) :
    (extendedPColumn O d today).length = O.length := by
  simp [extendedPColumn]

lemma map_range_succ_cons {β : Type} (f : ℕ → β) (n : ℕ) :
    (List.range (n + 1)).map f = f 0 :: (List.range' 1 n).map f := by
  rw [List.range_eq_range', List.range'_succ, List.map_cons]

lemma head?_take {β : Type} (l : List β) (n : ℕ) (h : n ≠ 0) :
    (l.take n).head? = l.head? := by
  cases n with
  | zero => exact absurd rfl h
  | succ m =>
    cases l with
    | nil => rfl
    | cons a t => rfl

/-- Any nonempty input whose last row has a parseable week-end date produces a
full (non-error, non-crash) 18m+ result. -/
lemma f18m_full_of (ud : List UnitsRow) (today : ℤ) (s? : Option SettingsDict)
    (d : ℤ) (hl : ((ud.map (·.week_end)).getLast?).getD none = some d)
    (hne : ud ≠ []) :
    ∃ r, calculate_forecast_18m_plus ud today s? = F18Result.full r := by
  match ud, hne with
  | u :: t, _ =>
    simp only [calculate_forecast_18m_plus, hl]
    exact ⟨_, rfl⟩

-- ===========================================================================
-- Service layer: `run_forecast_tps` (forecast_service.py 202-271)
-- ===========================================================================

/-- One row of the `units_sold` table as used by the service layer
(`week_date` is a non-nullable column; `units` its integer count). -/
structure SalesDbRow where
  week_date : ℤ
  units : ℚ
deriving DecidableEq, Repr

/-- The `UnitsSold.query...order_by(UnitsSold.week_date)` retrieval: the
stored rows sorted ascending by week date (SQL ORDER BY). -/
def orderByWeekDate (rows : List SalesDbRow) : List SalesDbRow :=
  rows.mergeSort (fun a b => a.week_date ≤ b.week_date)

/-- `get_product_age_months`: days since the first week with positive sales,
divided by 30.44; 0 without such a week. -/
def get_product_age_months (rows : List SalesDbRow) (sysToday : ℤ) : ℚ :=
  match ((rows.filter (fun s => 0 < s.units)).map (·.week_date)).min? with
  | none => 0
  | some first_sale => ((sysToday - first_sale : ℤ) : ℚ) / (3044/100)

/-- Python `round(q, digits)`, half to even. -/
def pyRoundN {α : Type} [LinearOrderedField α] [FloorRing α] (q : α) (digits : ℕ) : α :=
  (pyRound (q * (10 ^ digits : ℕ)) : ℤ) / ((10 ^ digits : ℕ) : α)

/-- The success payload of `run_forecast_tps` (selected fields of the
response dict, with the service-level roundings applied). -/
structure TpsPayload where
  product_name : String
  product_age_months : ℚ
  algorithm_used : String
  inventory_total : ℤ
  inventory_fba : ℤ
  units_to_make : ℤ
  doi_total_days : ℤ
  doi_fba_days : ℤ
  total_units_needed : ℚ
  lead_time_days : ℤ
  sales_velocity_adjustment : ℚ
  adjustment_factor : ℚ
  forecasts : List ForecastRow
deriving DecidableEq, Repr

/-- Outcome of `run_forecast_tps`: the product-not-found error dict, the
insufficient-history error dict, a raised exception (`KeyError` on the
short empty-data dict — unreachable behind the length gate), or the success
response. -/
inductive TpsOutcome where
  | productNotFound
  | insufficientHistory
  | exceptionRaised
  | success (payload : TpsPayload)
deriving DecidableEq, Repr

/-- Dispatch on the algorithm outcome: a full result becomes the success
response; the early empty-data dict makes the response builder raise
`KeyError` (missing keys), and the crash propagates. -/
def tpsDispatch (x : F18Result) (k : F18Full → TpsPayload) : TpsOutcome :=
  match x with
  | .crash => .exceptionRaised
  | .early _ => .exceptionRaised
  | .full r => .success (k r)

/-- `run_forecast_tps(asin, custom_settings)`.  The database interactions are
explicit inputs: the product row (by name), the product's `units_sold` rows,
and the aggregated inventory levels.  `sysToday` is `date.today()`. -/
def run_forecast_tps (product? : Option String) (sales : List SalesDbRow)
    (inventoryTotal fbaAvailable : ℤ) (custom_settings : Option SettingsDict)
    (sysToday : ℤ) : TpsOutcome :=
  match product? with
  | none => .productNotFound
  | some name =>
    let units_data := (orderByWeekDate sales).map
      (fun s => ({ week_end := some s.week_date, units := some s.units } : UnitsRow))
    if units_data.length < 4 then .insufficientHistory
    else
      let settings0 := { DEFAULT_SETTINGS with
        total_inventory := some inventoryTotal, fba_available := some fbaAvailable }
      let settings1 := match custom_settings with
        | some c => settingsUpdate settings0 c
        | none => settings0
      tpsDispatch (calculate_forecast_18m_plus units_data sysToday (some settings1))
        (fun r => {
          product_name := name
          product_age_months := pyRoundN (get_product_age_months sales sysToday) 2
          algorithm_used := "18m+ (TPS)"
          inventory_total := inventoryTotal
          inventory_fba := fbaAvailable
          units_to_make := r.units_to_make
          doi_total_days := r.doi_total_days
          doi_fba_days := r.doi_fba_days
          total_units_needed := pyRoundN r.total_units_needed 1
          lead_time_days := r.lead_time_days
          sales_velocity_adjustment := pyRoundN (r.sales_velocity_adjustment * 100) 2
          adjustment_factor := pyRoundN r.adjustment_factor 4
          forecasts := r.forecasts.take 12 })

lemma tpsDispatch_success (x : F18Result) (hr : ∃ r, x = F18Result.full r)
    (k : F18Full → TpsPayload) :
    ∃ p, tpsDispatch x k = TpsOutcome.success p := by
  obtain ⟨r, rfl⟩ := hr
  exact ⟨k r, rfl⟩

lemma units_data_last_date (l : List SalesDbRow) (hl : l ≠ []) :
    ∃ d, (((l.map (fun s => ({ week_end := some s.week_date, units := some s.units } : UnitsRow))).map
      (·.week_end)).getLast?).getD none = some d := by
  rw [List.map_map]
  have hne2 : l.map ((·.week_end) ∘ (fun s => ({ week_end := some s.week_date, units := some s.units } : UnitsRow))) ≠ [] := by
    simpa using hl
  rw [List.getLast?_eq_getLast_of_ne_nil hne2]
  have hmem := List.getLast_mem hne2
  obtain ⟨s, _, hs⟩ := List.mem_map.mp hmem
  refine ⟨s.week_date, ?_⟩
  rw [← hs]
  rfl

/-- C6: the minimum-history gate of `run_forecast_tps`.  With a found product
and fewer than 4 weekly sales rows the service returns the explicit
insufficient-history error outcome (a distinguished variant, not a success
carrying fabricated zeros and not an exception); with exactly 4 rows the 18m+
algorithm runs to a full result and the service returns a success payload. -/
theorem C6_minimum_history (name : String) (sales : List SalesDbRow)
    (ti fba : ℤ) (cs : Option SettingsDict) (td : ℤ) :
    (sales.length < 4 →
      run_forecast_tps (some name) sales ti fba cs td = TpsOutcome.insufficientHistory)
    ∧ (sales.length = 4 →
      ∃ payload, run_forecast_tps (some name) sales ti fba cs td
        = TpsOutcome.success payload) := by
  have hlen : ((orderByWeekDate sales).map
      (fun s => ({ week_end := some s.week_date, units := some s.units } : UnitsRow))).length
      = sales.length := by
    simp [orderByWeekDate, List.length_mergeSort]
  constructor
  · intro h4
    simp only [run_forecast_tps]
    rw [if_pos (by rw [hlen]; exact h4)]
  · intro h4
    have hlen2 : (orderByWeekDate sales).length = sales.length := by
      simp [orderByWeekDate, List.length_mergeSort]
    have hne : orderByWeekDate sales ≠ [] := by
      intro hc
      rw [hc] at hlen2
      simp at hlen2
      omega
    obtain ⟨d, hd⟩ := units_data_last_date (orderByWeekDate sales) hne
    simp only [run_forecast_tps]
    rw [if_neg (by rw [hlen]; omega)]
    exact tpsDispatch_success _
      (f18m_full_of _ td _ d hd (by simpa using hne)) _

/-- C6 witness: `C6_minimum_history` at a 3-row history (insufficient) and a
4-row history (success). -/
theorem C6_witness :
    (run_forecast_tps (some "A") [⟨7, 1⟩, ⟨14, 1⟩, ⟨21, 1⟩] 0 0 none 0
      = TpsOutcome.insufficientHistory)
    ∧ (∃ payload, run_forecast_tps (some "A") [⟨7, 1⟩, ⟨14, 1⟩, ⟨21, 1⟩, ⟨28, 1⟩] 0 0 none 0
      = TpsOutcome.success payload) :=
  ⟨(C6_minimum_history "A" [⟨7, 1⟩, ⟨14, 1⟩, ⟨21, 1⟩] 0 0 none 0).1 (by norm_num),
   (C6_minimum_history "A" [⟨7, 1⟩, ⟨14, 1⟩, ⟨21, 1⟩, ⟨28, 1⟩] 0 0 none 0).2 rfl⟩

-- ===========================================================================
-- Input ordering: `run_forecast_tps` retrieval vs the 18m+ core
-- (forecast_service.py 225-226, algorithms_tps.py 666-847)
-- ===========================================================================

/-- The week-end date of the first returned forecast row of a full 18m+
result (`result['forecasts'][0]['week_end']`), `none` otherwise.  A
positional probe: it reveals whether the core reads the rows in the order
given. -/
def f18mForecastHeadDate : F18Result → Option ℤ
  | .full r => (r.forecasts.head?).map (·.week_end)
  | _ => none

/-- A two-row weekly series presented in descending date order. -/
def c8unsorted : List UnitsRow := [⟨some 15, some 5⟩, ⟨some 7, some 5⟩]

/-- The same two rows in ascending date order. -/
def c8sorted : List UnitsRow := [⟨some 7, some 5⟩, ⟨some 15, some 5⟩]

lemma c8_ext_unsorted : buildExtendedDates [some 15, some 7] 7
    = [some 15, some 7] ++ (List.range' 1 104).map (fun i : ℕ => some (7 + 7 * (i : ℤ))) := by
  apply buildExtendedDates_eq
  intro i hi
  have hb : 1 ≤ i ∧ i < 1 + 104 := by
    constructor
    · exact (List.mem_range'_1.mp hi).1
    · exact (List.mem_range'_1.mp hi).2
  simp only [List.mem_cons, List.not_mem_nil, or_false]
  push_neg
  constructor
  · intro hc
    have : (7:ℤ) + 7 * (i:ℤ) = 15 := by exact_mod_cast Option.some.inj hc
    omega
  · intro hc
    have : (7:ℤ) + 7 * (i:ℤ) = 7 := by exact_mod_cast Option.some.inj hc
    omega

lemma c8_ext_sorted : buildExtendedDates [some 7, some 15] 15
    = [some 7, some 15] ++ (List.range' 1 104).map (fun i : ℕ => some (15 + 7 * (i : ℤ))) := by
  apply buildExtendedDates_eq
  intro i hi
  have hb : 1 ≤ i ∧ i < 1 + 104 := by
    constructor
    · exact (List.mem_range'_1.mp hi).1
    · exact (List.mem_range'_1.mp hi).2
  simp only [List.mem_cons, List.not_mem_nil, or_false]
  push_neg
  constructor
  · intro hc
    have : (15:ℤ) + 7 * (i:ℤ) = 7 := by exact_mod_cast Option.some.inj hc
    omega
  · intro hc
    have : (15:ℤ) + 7 * (i:ℤ) = 15 := by exact_mod_cast Option.some.inj hc
    omega

lemma c8_head_unsorted :
    f18mForecastHeadDate (calculate_forecast_18m_plus c8unsorted 0 none) = some 15 := by
  have hlast : (((([⟨some 15, some 5⟩, ⟨some 7, some 5⟩] : List UnitsRow)).map (·.week_end)).getLast?).getD none = some 7 := rfl
  simp only [c8unsorted, calculate_forecast_18m_plus, hlast]
  simp only [show (([⟨some 15, some 5⟩, ⟨some 7, some 5⟩] : List UnitsRow)).map (·.week_end) = [some 15, some 7] from rfl,
    c8_ext_unsorted]
  simp only [f18mForecastHeadDate]
  rw [head?_take _ _ (by norm_num)]
  simp only [extendedPColumn, extendedOColumn_length, extendedK_length, extendedJ_length,
    List.length_append, List.length_map, List.length_range', List.length_cons,
    List.length_nil]
  simp only [show (2 + 104 : ℕ) = 105 + 1 from rfl, map_range_succ_cons,
    calculate_weekly_units_needed, List.cons_append, List.zip_cons_cons,
    List.map_cons, List.filterMap_cons]
  norm_num

lemma c8_head_sorted :
    f18mForecastHeadDate (calculate_forecast_18m_plus c8sorted 0 none) = some 7 := by
  have hlast : (((([⟨some 7, some 5⟩, ⟨some 15, some 5⟩] : List UnitsRow)).map (·.week_end)).getLast?).getD none = some 15 := rfl
  simp only [c8sorted, calculate_forecast_18m_plus, hlast]
  simp only [show (([⟨some 7, some 5⟩, ⟨some 15, some 5⟩] : List UnitsRow)).map (·.week_end) = [some 7, some 15] from rfl,
    c8_ext_sorted]
  simp only [f18mForecastHeadDate]
  rw [head?_take _ _ (by norm_num)]
  simp only [extendedPColumn, extendedOColumn_length, extendedK_length, extendedJ_length,
    List.length_append, List.length_map, List.length_range', List.length_cons,
    List.length_nil]
  simp only [show (2 + 104 : ℕ) = 105 + 1 from rfl, map_range_succ_cons,
    calculate_weekly_units_needed, List.cons_append, List.zip_cons_cons,
    List.map_cons, List.filterMap_cons]
  norm_num

/-- C8 (amended): the ordering guarantee lives in the service layer, not the
core.  `run_forecast_tps` retrieves the sales rows through an
`ORDER BY week_date` query, so the series handed to the 18m+ core is always a
permutation of the stored rows sorted ascending by week date.  The core
itself performs no ordering check — see the counterexample, where it silently
computes different forecasts from two orderings of the same rows. -/
theorem C8_input_ordering (rows : List SalesDbRow) :
    (orderByWeekDate rows).Pairwise (fun a b => a.week_date ≤ b.week_date)
    ∧ (orderByWeekDate rows).Perm rows := by
  constructor
  · have h := @List.sorted_mergeSort SalesDbRow
      (fun a b => decide (a.week_date ≤ b.week_date))
      (fun a b c h1 h2 => by
        simp only [decide_eq_true_eq] at h1 h2 ⊢
        omega)
      (fun a b => by
        simp only [Bool.or_eq_true, decide_eq_true_eq]
        omega) rows
    exact h.imp (fun hab => by simpa using hab)
  · exact List.mergeSort_perm rows _

/-- C8 counterexample: the claim that the core detects unsorted input and
sorts or rejects it is false.  The two-row series with week ends `[15, 7]`
(descending) is a permutation of the sorted series `[7, 15]`; the core
silently produces a full forecast on it, and its first forecast row carries
week end 15 where the sorted input yields 7 — the unsorted positions flow
straight through. -/
theorem C8_counterexample :
    c8unsorted.map (fun r : UnitsRow => r.week_end) = [some 15, some 7]
    ∧ ¬ ((15:ℤ) ≤ 7)
    ∧ c8unsorted.Perm c8sorted
    ∧ (∃ r, calculate_forecast_18m_plus c8unsorted 0 none = F18Result.full r)
    ∧ f18mForecastHeadDate (calculate_forecast_18m_plus c8unsorted 0 none) = some 15
    ∧ f18mForecastHeadDate (calculate_forecast_18m_plus c8sorted 0 none) = some 7
    ∧ some (15:ℤ) ≠ some (7:ℤ) := by
  refine ⟨rfl, by norm_num, List.Perm.swap _ _ _,
    f18m_full_of c8unsorted 0 none 7 rfl (by simp [c8unsorted]),
    c8_head_unsorted, c8_head_sorted, by simp⟩

-- ===========================================================================
-- Search-volume seasonality chain (algorithms_tps.py 916-993, 1155-1263)
-- ===========================================================================

/-- One row of the per-product `sv_database` search-volume feed. -/
structure SvRow where
  week_date : Option ℤ
  search_volume : Option ℚ
deriving DecidableEq, Repr

/-- One row of the global `seasonality_data` table. -/
structure SeasonalityRow where
  week_of_year : Option ℤ
  seasonality_index : Option ℚ
deriving DecidableEq, Repr

/-- One vine-claim record: `claim_date` (possibly unparseable) and
`units_claimed` (possibly absent, `or 0` at use). -/
structure VineClaim where
  claim_date : Option ℤ
  units_claimed : Option ℚ
deriving DecidableEq, Repr

/-- Assoc-list dictionary lookup (each key held at most once). -/
def alistLookup {β : Type} (acc : List (ℤ × β)) (k : ℤ) : Option β :=
  (acc.find? (fun p => p.1 = k)).map (·.2)

/-- `sv_by_week`: search-volume rows keyed by ISO week of year, keeping for
each week the row with the latest parseable date (strictly later dates
overwrite).  Entries hold `(week_of_year, (week_date, search_volume or 0))`. -/
def buildSvByWeek (product_sv : List SvRow) : List (ℤ × ℤ × ℚ) :=
  product_sv.foldl (fun acc sv =>
    match sv.week_date with
    | none => acc
    | some d =>
      match alistLookup acc (isoWeekOfYear d) with
      | none => acc ++ [(isoWeekOfYear d, d, (sv.search_volume).getD 0)]
      | some prev =>
        if prev.1 < d then
          acc.map (fun p =>
            if p.1 = isoWeekOfYear d then (isoWeekOfYear d, d, (sv.search_volume).getD 0) else p)
        else acc) []

/-- The guard `len(sv_by_week) >= 3` deciding whether per-product search
volume data exists. -/
def svHasData (product_sv : List SvRow) : Bool :=
  3 ≤ (buildSvByWeek product_sv).length

/-- Column B: 54 weekly search volumes (weeks 1-52 from `sv_by_week`, weeks
53-54 forced to 0). -/
def svB (product_sv : List SvRow) : List ℚ :=
  (List.range' 1 54).map (fun w =>
    if (w : ℤ) ≤ 52 then
      match alistLookup (buildSvByWeek product_sv) (w : ℤ) with
      | some p => p.2
      | none => 0
    else 0)

/-- Column C: `max(B[max(0, i-2) : i+1])`, the 3-row backward window max. -/
def svPeakC (B : List ℚ) : List ℚ :=
  (List.range B.length).map (fun i => (((B.take (i + 1)).drop (i - 2)).max?).getD 0)

/-- Columns D and H: `(x[i] + x[i+1]) / 2`, with 0 for the last row. -/
def svPairD (C : List ℚ) : List ℚ :=
  (List.range C.length).map (fun i =>
    if i < C.length - 1 then (C.getD i 0 + C.getD (i + 1) 0) / 2 else 0)

/-- Columns E and G: 3-row centred average with the source's edge handling. -/
def svCentered3 (D : List ℚ) : List ℚ :=
  (List.range D.length).map (fun i =>
    if i = 0 then (if 1 < D.length then (D.getD 0 0 + D.getD 1 0) / 2 else D.getD 0 0)
    else if D.length - 1 ≤ i then (D.getD (i - 1) 0 + D.getD i 0) / 2
    else (D.getD (i - 1) 0 + D.getD i 0 + D.getD (i + 1) 0) / 3)

/-- Column F: `(B + D + E) / 3`. -/
def svAvgBDE (B D E : List ℚ) : List ℚ :=
  (List.range B.length).map (fun i => (B.getD i 0 + D.getD i 0 + E.getD i 0) / 3)

/-- The full smoothing chain B → C → D → E → F → G → H. -/
def svChainH (B : List ℚ) : List ℚ :=
  let C := svPeakC B
  let D := svPairD C
  let E := svCentered3 D
  let F := svAvgBDE B D E
  let G := svCentered3 F
  svPairD G

/-- `H_52`: the smoothed envelope restricted to weeks 1-52. -/
def svH52 (product_sv : List SvRow) : List ℚ :=
  (svChainH (svB product_sv)).take 52

/-- `max_H`: the maximum of `H_52`, replaced by 1 when empty or `≤ 0`. -/
def svMaxH (product_sv : List SvRow) : ℚ :=
  match (svH52 product_sv).max? with
  | some m => if m ≤ 0 then 1 else m
  | none => 1

/-- `calculate_per_product_seasonality`: the per-product seasonality index
dictionary — keys 1-52, values `round(H_52[w-1] / max_H, 2)` — or the empty
dictionary when fewer than 3 distinct weeks of search volume exist. -/
def calculate_per_product_seasonality (product_sv : List SvRow) (w : ℤ) : Option ℚ :=
  if svHasData product_sv ∧ 1 ≤ w ∧ w ≤ 52 then
    some (pyRound2 ((svH52 product_sv).getD (w - 1).toNat 0 / svMaxH product_sv))
  else none

/-- The 6-18m inline `sv_smooth_env_97_lookup`: `H_52[w-1] * 0.97` for weeks
1-52 when per-product data exists, absent otherwise. -/
def sv618Env97 (product_sv : List SvRow) (w : ℤ) : Option ℚ :=
  if svHasData product_sv ∧ 1 ≤ w ∧ w ≤ 52 then
    some ((svH52 product_sv).getD (w - 1).toNat 0 * (97/100))
  else none

-- ===========================================================================
-- 6-18 month algorithm: `calculate_forecast_6_18m` (algorithms_tps.py 855-1147)
-- ===========================================================================

/-- `vine_claims_parsed`: claims with a parseable date, units `or 0`. -/
def vineClaimsParsed (vine_claims : List VineClaim) : List (ℤ × ℚ) :=
  vine_claims.filterMap (fun vc =>
    (vc.claim_date).map (fun d => (d, (vc.units_claimed).getD 0)))

/-- Vine units claimed within the 6 days before (and including) `week_end`. -/
def vineSum (parsed : List (ℤ × ℚ)) (week_end : ℤ) : ℚ :=
  ((parsed.filter (fun v => week_end - 6 ≤ v.1 ∧ v.1 ≤ week_end)).map (·.2)).sum

/-- Column G of the 6-18m sheet: `adj_units / sv_smooth_env_97` per
historical row with a parseable date (0 when the envelope is not positive). -/
def cvrGValues (units_data : List UnitsRow) (vine : List (ℤ × ℚ))
    (env97 : ℤ → Option ℚ) : List ℚ :=
  units_data.filterMap (fun d =>
    (d.week_end).map (fun week_end =>
      let adj_units := max 0 ((d.units).getD 0 - vineSum vine week_end)
      let e := (env97 (isoWeekOfYear week_end)).getD 0
      if 0 < e then adj_units / e else 0))

/-- `H_avg_peak_cvr`: the average of the 5 G values centred on the first
maximum, 0.0012 when no strictly positive G value exists. -/
def avgPeakCvrH (G : List ℚ) : ℚ :=
  if G ≠ [] ∧ G.any (fun g => decide (0 < g)) then
    let max_g := (G.max?).getD 0
    let max_idx := G.indexOf max_g
    let window := (G.take (min G.length (max_idx + 3))).drop (max_idx - 2)
    if window = [] then 0 else window.sum / (window.length : ℚ)
  else 3/2500

/-- One future week's 6-18m forecast:
`sv_smooth_env_97 * (H * (1 + 0.25 * (seasonality_index - 1)))`, with lookup
defaults 0 and 1.0 respectively. -/
def forecast618At (env97 idxLookup : ℤ → Option ℚ) (H : ℚ) (d : ℤ) : ℚ :=
  let sv_env := (env97 (isoWeekOfYear d)).getD 0
  let idx := (idxLookup (isoWeekOfYear d)).getD 1
  sv_env * (H * (1 + (1/4) * (idx - 1)))

/-- The Saturday-aligned future week-end dates: the first Saturday strictly
after `today` (a Saturday rolls to the next), then every 7 days up to
`today + lead_time_days + 365`. -/
def saturdayDates (today lead_time_days : ℤ) : List ℤ :=
  let dus0 := (5 - pyWeekday today) % 7
  let dus := if dus0 = 0 then 7 else dus0
  let first_saturday := today + dus
  let last_day := today + lead_time_days + 365
  (List.range (Int.fdiv (last_day - first_saturday) 7 + 1).toNat).map
    (fun k => first_saturday + 7 * (k : ℤ))

/-- The full result dict of `calculate_forecast_6_18m`. -/
structure F618Full where
  units_to_make : ℤ
  doi_total_days : ℤ
  doi_fba_days : ℤ
  runout_date_total : Option ℤ
  runout_date_fba : Option ℤ
  lead_time_days : ℤ
  total_units_needed : ℚ
  avg_peak_cvr : ℚ
  needs_seasonality : Bool
  forecasts : List ForecastRow
  settings : SettingsDict
deriving DecidableEq, Repr

/-- Outcome of `calculate_forecast_6_18m`: the short early dict (for
triple-empty input; it lacks the runout and lead-time keys) or a full
result. -/
inductive F618Result where
  | early (settings : SettingsDict)
  | full (r : F618Full)
deriving DecidableEq, Repr

/-- `calculate_forecast_6_18m(units_data, seasonality_data, today, settings,
vine_claims, product_search_volume)`.  Note the global `seasonality_data`
feeds only the emptiness test: the seasonality actually used comes from the
per-product search volume. -/
def calculate_forecast_6_18m (units_data : List UnitsRow)
    (seasonality_data : List SeasonalityRow) (today : ℤ) (settings : SettingsDict)
    (vine_claims : List VineClaim) (product_search_volume : List SvRow) : F618Result :=
  if units_data = [] ∧ product_search_volume = [] ∧ seasonality_data = [] then
    .early settings
  else
    let vine := vineClaimsParsed vine_claims
    let G := cvrGValues units_data vine (sv618Env97 product_search_volume)
    let H := avgPeakCvrH G
    let lead_time_days := (settings.amazon_doi_goal).getD 93
      + (settings.inbound_lead_time).getD 30 + (settings.manufacture_lead_time).getD 7
    let extended_dates := saturdayDates today lead_time_days
    let extended_forecasts := extended_dates.map
      (forecast618At (sv618Env97 product_search_volume)
        (calculate_per_product_seasonality product_search_volume) H)
    let L_values := (extended_dates.zip extended_forecasts).map
      (fun p => if today < p.1 then p.2 else 0)
    let weekly_needed := calculate_weekly_units_needed L_values
      (extended_dates.map some) today lead_time_days
    let total_inventory : ℤ := (settings.total_inventory).getD 0
    let fba_available : ℤ := (settings.fba_available).getD 0
    let calibrated := weekly_needed.map (fun w => w * CALIBRATION_FACTORS "6-18m")
    let doi_total := calculate_doi L_values (extended_dates.map some) (total_inventory : ℚ) today
    let doi_fba := calculate_doi L_values (extended_dates.map some) (fba_available : ℚ) today
    .full {
      units_to_make := calculate_units_to_make calibrated total_inventory
      doi_total_days := doi_total.doi_days
      doi_fba_days := doi_fba.doi_days
      runout_date_total := doi_total.runout_date
      runout_date_fba := doi_fba.runout_date
      lead_time_days := lead_time_days
      total_units_needed := weekly_needed.sum
      avg_peak_cvr := H
      needs_seasonality := !(svHasData product_search_volume)
      forecasts := ((extended_dates.zip (L_values.zip weekly_needed)).filterMap (fun t =>
        if today ≤ t.1 then some (⟨t.1, t.2.1, t.2.2⟩ : ForecastRow) else none)).take 52
      settings := settings }

-- ===========================================================================
-- 0-6 month algorithm: `calculate_forecast_0_6m_exact`
-- (algorithms_tps.py 1266-1489); `pow(ratio, 0.65)` forces real arithmetic
-- ===========================================================================

/-- The global-seasonality fallback dictionary: rows with both
`week_of_year` and `seasonality_index` present, last write wins, values
rounded to 2 decimals. -/
def globalSeasonalityLookup (seasonality_data : List SeasonalityRow) (w : ℤ) : Option ℚ :=
  ((seasonality_data.filter
      (fun s => s.week_of_year = some w ∧ s.seasonality_index ≠ none)).getLast?).bind
    (fun s => (s.seasonality_index).map pyRound2)

/-- The 0-6m seasonality lookup: per-product when search-volume data exists,
else the global fallback. -/
def seasonality06Lookup (product_sv : List SvRow)
    (seasonality_data : List SeasonalityRow) (w : ℤ) : Option ℚ :=
  if svHasData product_sv then calculate_per_product_seasonality product_sv w
  else globalSeasonalityLookup seasonality_data w

/-- `has_sv_data` of the 0-6m path: per-product data, or at least one usable
global seasonality row. -/
def has_sv_data06 (product_sv : List SvRow)
    (seasonality_data : List SeasonalityRow) : Bool :=
  svHasData product_sv
    || seasonality_data.any (fun s => s.week_of_year ≠ none ∧ s.seasonality_index ≠ none)

/-- Column E per historical week (parseable date strictly before today):
`max(0, units - vine_units)`. -/
def historicalAdjUnits (units_data : List UnitsRow) (vine : List (ℤ × ℚ))
    (today : ℤ) : List ℚ :=
  units_data.filterMap (fun d =>
    (d.week_end).bind (fun we =>
      if we < today then some (max 0 ((d.units).getD 0 - vineSum vine we)) else none))

/-- The ISO week of the most recent historical week (strictly before
today), when one exists. -/
def lastHistoricalWeek (units_data : List UnitsRow) (today : ℤ) : Option ℤ :=
  ((((units_data.filterMap (·.week_end)).filter (fun we => we < today))).max?).map
    isoWeekOfYear

/-- `idx_now`: the seasonality index of the most recent historical week
(falling back to today's week), defaulting to 0.15 when the lookup misses,
and forced to 0.15 when the looked-up value is `≤ 0`. -/
def idxNow06 (lookup : ℤ → Option ℚ) (last_week : Option ℤ) (today : ℤ) : ℚ :=
  let raw := match last_week with
    | some w => (lookup w).getD (3/20)
    | none => (lookup (isoWeekOfYear today)).getD (3/20)
  if raw ≤ 0 then 3/20 else raw

/-- One future week's 0-6m forecast:
`max(0, peak_units * pow(future_seasonality / idx_now, 0.65))` with the
future week's seasonality defaulting to 0.5 when its week has no entry;
0 when `idx_now` or `peak_units` is not positive. -/
noncomputable def forecast06At (lookup : ℤ → Option ℚ) (idx_now peak_units : ℚ)
    (d : ℤ) : ℝ :=
  if 0 < idx_now ∧ 0 < peak_units then
    max 0 ((peak_units : ℝ)
      * Real.rpow ((((lookup (isoWeekOfYear d)).getD (1/2) : ℚ) : ℝ) / (idx_now : ℝ))
        (13/20))
  else 0

/-- A forecast row of the 0-6m result (real-valued). -/
structure ForecastRowR where
  week_end : ℤ
  forecast : ℝ
  units_needed : ℝ

/-- The result dict of `calculate_forecast_0_6m_exact` (it has no early
return). -/
structure F06Full where
  units_to_make : ℤ
  doi_total_days : ℤ
  doi_fba_days : ℤ
  runout_date_total : Option ℤ
  runout_date_fba : Option ℤ
  lead_time_days : ℤ
  total_units_needed : ℝ
  peak_units : ℚ
  idx_now : ℚ
  elasticity : ℚ
  needs_seasonality : Bool
  forecasts : List ForecastRowR
  settings : SettingsDict

/-- `calculate_forecast_0_6m_exact(units_data, seasonality_data,
vine_claims, today, settings, product_search_volume)`. -/
noncomputable def calculate_forecast_0_6m_exact (units_data : List UnitsRow)
    (seasonality_data : List SeasonalityRow) (vine_claims : List VineClaim)
    (today : ℤ) (settings : SettingsDict) (product_search_volume : List SvRow) :
    F06Full :=
  let vine := vineClaimsParsed vine_claims
  let lookup := seasonality06Lookup product_search_volume seasonality_data
  let adj_units_list := historicalAdjUnits units_data vine today
  let peak_units : ℚ := (adj_units_list.max?).getD 0
  let idx_now := idxNow06 lookup (lastHistoricalWeek units_data today) today
  let lead_time_days := (settings.amazon_doi_goal).getD 93
    + (settings.inbound_lead_time).getD 30 + (settings.manufacture_lead_time).getD 7
  let extended_dates := saturdayDates today lead_time_days
  let extended_forecasts := extended_dates.map (forecast06At lookup idx_now peak_units)
  let weekly_needed := calculate_weekly_units_needed extended_forecasts
    (extended_dates.map some) today lead_time_days
  let total_inventory : ℤ := (settings.total_inventory).getD 0
  let fba_available : ℤ := (settings.fba_available).getD 0
  let calibrated := weekly_needed.map (fun w => w * ((CALIBRATION_FACTORS "0-6m" : ℚ) : ℝ))
  let doi_total := calculate_doi extended_forecasts (extended_dates.map some)
    ((total_inventory : ℤ) : ℝ) today
  let doi_fba := calculate_doi extended_forecasts (extended_dates.map some)
    ((fba_available : ℤ) : ℝ) today
  { units_to_make := calculate_units_to_make calibrated total_inventory
    doi_total_days := doi_total.doi_days
    doi_fba_days := doi_fba.doi_days
    runout_date_total := doi_total.runout_date
    runout_date_fba := doi_fba.runout_date
    lead_time_days := lead_time_days
    total_units_needed := calibrated.sum
    peak_units := peak_units
    idx_now := idx_now
    elasticity := 13/20
    needs_seasonality := !(has_sv_data06 product_search_volume seasonality_data)
    forecasts := ((extended_dates.zip (extended_forecasts.zip weekly_needed)).filterMap
      (fun t => if today ≤ t.1 then some (⟨t.1, t.2.1, t.2.2⟩ : ForecastRowR) else none)).take 52
    settings := settings }

-- ===========================================================================
-- Orchestrator: `generate_full_forecast` (algorithms_tps.py 1496-1602)
-- ===========================================================================

/-- The `inventory` dict argument of `generate_full_forecast` (the keys the
function reads; the whole dict is echoed in the result). -/
structure InventoryDict where
  total_inventory : Option ℤ
  fba_available : Option ℤ
deriving DecidableEq, Repr

/-- The orchestrator's first mutation of the caller's settings dict:
`settings['total_inventory'] = inventory.get('total_inventory', 0)` and
`settings['fba_available'] = inventory.get('fba_available', 0)`. -/
def gffSeedSettings (s : SettingsDict) (inventory : InventoryDict) : SettingsDict :=
  { s with
    total_inventory := some ((inventory.total_inventory).getD 0)
    fba_available := some ((inventory.fba_available).getD 0) }

/-- The `'settings'` section of the orchestrator's response. -/
structure GFFSettingsOut where
  amazon_doi_goal : ℤ
  inbound_lead_time : ℤ
  manufacture_lead_time : ℤ
  total_lead_time : ℤ
  market_adjustment : ℚ
  sales_velocity_adjustment : ℚ
  velocity_weight : ℚ
deriving DecidableEq, Repr

/-- One per-algorithm summary block of the `'algorithms'` section. -/
structure AlgoSummary (α : Type) where
  units_to_make : ℤ
  doi_total_days : ℤ
  doi_fba_days : ℤ
  runout_date_total : Option ℤ
  runout_date_fba : Option ℤ
  total_units_needed : α

/-- The `'summary'` section. -/
structure GFFSummary where
  total_inventory : ℤ
  fba_available : ℤ
  primary_units_to_make : ℤ
  primary_doi_total : ℤ
  primary_doi_fba : ℤ
deriving DecidableEq, Repr

/-- The full response dict of `generate_full_forecast`.  `generated_at`
carries `datetime.now()` — the wall-clock timestamp at response-build time,
an input distinct from the `today` parameter. -/
structure GFFResult where
  product_asin : String
  generated_at : ℤ
  calculation_date : ℤ
  inventory : InventoryDict
  active_algorithm : String
  settings : GFFSettingsOut
  algo_0_6m : AlgoSummary ℝ
  algo_6_18m : AlgoSummary ℚ
  algo_18m : AlgoSummary ℚ
  forecasts_0_6m : List ForecastRowR
  forecasts_6_18m : List ForecastRow
  forecasts_18m : List ForecastRow
  summary : GFFSummary

/-- The primary algorithm's `(units_to_make, doi_total, doi_fba,
lead_time_days)` per the `algorithm` selector (default 18m+). -/
def gffPrimaryStats (algorithm : String) (r18 : F18Full) (r618 : F618Full)
    (r06 : F06Full) : ℤ × ℤ × ℤ × ℤ :=
  if algorithm = "0-6m" then
    (r06.units_to_make, r06.doi_total_days, r06.doi_fba_days, r06.lead_time_days)
  else if algorithm = "6-18m" then
    (r618.units_to_make, r618.doi_total_days, r618.doi_fba_days, r618.lead_time_days)
  else
    (r18.units_to_make, r18.doi_total_days, r18.doi_fba_days, r18.lead_time_days)

/-- Assembly of the orchestrator's response dict from the three algorithm
results (`settings` is the dict at return time, i.e. after the in-place
mutations). -/
noncomputable def gffAssemble (product_asin : String) (now today : ℤ)
    (inventory : InventoryDict) (algorithm : String) (settings : SettingsDict)
    (r18 : F18Full) (r618 : F618Full) (r06 : F06Full) : GFFResult :=
  let primary := gffPrimaryStats algorithm r18 r618 r06
  { product_asin := product_asin
    generated_at := now
    calculation_date := today
    inventory := inventory
    active_algorithm := algorithm
    settings := {
      amazon_doi_goal := (settings.amazon_doi_goal).getD 93
      inbound_lead_time := (settings.inbound_lead_time).getD 30
      manufacture_lead_time := (settings.manufacture_lead_time).getD 7
      total_lead_time := primary.2.2.2
      market_adjustment := (settings.market_adjustment).getD (1/20)
      sales_velocity_adjustment := (settings.sales_velocity_adjustment).getD (1/10)
      velocity_weight := (settings.velocity_weight).getD (3/20) }
    algo_0_6m := ⟨r06.units_to_make, r06.doi_total_days, r06.doi_fba_days,
      r06.runout_date_total, r06.runout_date_fba, r06.total_units_needed⟩
    algo_6_18m := ⟨r618.units_to_make, r618.doi_total_days, r618.doi_fba_days,
      r618.runout_date_total, r618.runout_date_fba, r618.total_units_needed⟩
    algo_18m := ⟨r18.units_to_make, r18.doi_total_days, r18.doi_fba_days,
      r18.runout_date_total, r18.runout_date_fba, r18.total_units_needed⟩
    forecasts_0_6m := r06.forecasts
    forecasts_6_18m := r618.forecasts
    forecasts_18m := r18.forecasts
    summary := ⟨(inventory.total_inventory).getD 0, (inventory.fba_available).getD 0,
      primary.1, primary.2.1, primary.2.2.1⟩ }

/-- Dispatch on the 18m+ outcome inside the orchestrator: a crash
propagates, and the early empty-data dict makes the response construction
raise `KeyError` (it reads `result_18m['runout_date_total']`, a key the
early dict lacks); both are modelled as `none`. -/
def gffDispatch (x : F18Result)
    (k : F18Full → Option (GFFResult × SettingsDict)) :
    Option (GFFResult × SettingsDict) :=
  match x with
  | .crash => none
  | .early _ => none
  | .full r => k r

/-- Dispatch on the 6-18m outcome: the early dict likewise crashes the
response construction (`result_6_18m['runout_date_total']`). -/
def gff618Dispatch (x : F618Result)
    (k : F618Full → Option (GFFResult × SettingsDict)) :
    Option (GFFResult × SettingsDict) :=
  match x with
  | .early _ => none
  | .full r => k r

/-- `generate_full_forecast(product_asin, units_sold_data, seasonality_data,
inventory, settings, today, algorithm, vine_claims, product_search_volume)`.
`today` is the explicit calculation date; `now` is the wall clock read by
`datetime.now()` when the response is built.  The caller's settings dict is
mutated in place; the final dict (`r18.settings`, carrying the
`calculated_velocity_adjustment` write of the 18m+ pass) is both stored in
the per-algorithm results and returned here as the second component.  A
`none` result models the `KeyError`/`TypeError` raised on the crash and
early-dict paths. -/
noncomputable def generate_full_forecast (product_asin : String)
    (units_sold_data : List UnitsRow) (seasonality_data : List SeasonalityRow)
    (inventory : InventoryDict) (settings? : Option SettingsDict) (today : ℤ)
    (algorithm : String) (vine_claims : List VineClaim)
    (product_search_volume : List SvRow) (now : ℤ) :
    Option (GFFResult × SettingsDict) :=
  gffDispatch (calculate_forecast_18m_plus units_sold_data today
      (some (gffSeedSettings (settings?.getD DEFAULT_SETTINGS) inventory)))
    (fun r18 =>
      gff618Dispatch (calculate_forecast_6_18m units_sold_data seasonality_data today
          r18.settings vine_claims product_search_volume)
        (fun r618 =>
          some (gffAssemble product_asin now today inventory algorithm r18.settings r18 r618
            (calculate_forecast_0_6m_exact units_sold_data seasonality_data vine_claims
              today r18.settings product_search_volume), r18.settings)))

/-- Erase the wall-clock timestamp from a response (set `generated_at` to a
fixed value), for the determinism-modulo-timestamp statement. -/
noncomputable def eraseGeneratedAt (r : GFFResult) : GFFResult :=
  { r with generated_at := 0 }

lemma f618_full_of (ud : List UnitsRow) (sd : List SeasonalityRow) (today : ℤ)
    (s : SettingsDict) (vc : List VineClaim) (psv : List SvRow) (hne : ud ≠ []) :
    ∃ r, calculate_forecast_6_18m ud sd today s vc psv = F618Result.full r := by
  unfold calculate_forecast_6_18m
  rw [if_neg (fun h => hne h.1)]
  exact ⟨_, rfl⟩

lemma gff_generated_at (asin : String) (units : List UnitsRow)
    (sdata : List SeasonalityRow) (inv : InventoryDict) (s? : Option SettingsDict)
    (today : ℤ) (alg : String) (vine : List VineClaim) (psv : List SvRow)
    (now d : ℤ)
    (hd : ((units.map (·.week_end)).getLast?).getD none = some d)
    (hne : units ≠ []) :
    (generate_full_forecast asin units sdata inv s? today alg vine psv now).map
      (fun p => p.1.generated_at) = some now := by
  obtain ⟨r18, h18⟩ := f18m_full_of units today
    (some (gffSeedSettings (s?.getD DEFAULT_SETTINGS) inv)) d hd hne
  obtain ⟨r618, h618⟩ := f618_full_of units sdata today r18.settings vine psv hne
  unfold generate_full_forecast
  rw [h18]
  simp only [gffDispatch]
  rw [h618]
  simp only [gff618Dispatch]
  rfl

/-- C7 (amended): the orchestrator is deterministic in its explicit inputs
except for the `generated_at` wall-clock timestamp.  Two calls with
identical sales, seasonality, vine, inventory, settings, algorithm and the
same explicit `today`, made at different wall-clock instants, return results
and final settings that agree exactly once `generated_at` is erased — the
timestamp is the only hidden time-dependent input beyond `today`. -/
theorem C7_determinism_modulo_timestamp (asin : String) (units : List UnitsRow)
    (sdata : List SeasonalityRow) (inv : InventoryDict) (s? : Option SettingsDict)
    (today : ℤ) (alg : String) (vine : List VineClaim) (psv : List SvRow)
    (now1 now2 : ℤ) :
    (generate_full_forecast asin units sdata inv s? today alg vine psv now1).map
        (fun p => (eraseGeneratedAt p.1, p.2))
      = (generate_full_forecast asin units sdata inv s? today alg vine psv now2).map
        (fun p => (eraseGeneratedAt p.1, p.2)) := by
  unfold generate_full_forecast
  cases calculate_forecast_18m_plus units today
      (some (gffSeedSettings (s?.getD DEFAULT_SETTINGS) inv)) with
  | crash => rfl
  | early s => rfl
  | full r18 =>
    simp only [gffDispatch]
    cases calculate_forecast_6_18m units sdata today r18.settings vine psv with
    | early s => rfl
    | full r618 =>
      simp only [gff618Dispatch]
      rfl

def c7units : List UnitsRow :=
  [⟨some 7, some 1⟩, ⟨some 14, some 2⟩, ⟨some 21, some 3⟩, ⟨some 28, some 4⟩]

/-- C7 counterexample: the claim of byte-identical results across calls is
false.  On a fixed 4-week input with `today = 0` and no custom settings, a
call at wall-clock instant 0 and a call at instant 1 return responses whose
`generated_at` fields are 0 and 1 respectively, so the two response dicts
are not equal even though every explicit input, `today` included, is
identical. -/
theorem C7_counterexample :
    ((generate_full_forecast "B01" c7units [] ⟨none, none⟩ none 0 "18m+" [] [] 0).map
        (fun p => p.1.generated_at) = some 0)
    ∧ ((generate_full_forecast "B01" c7units [] ⟨none, none⟩ none 0 "18m+" [] [] 1).map
        (fun p => p.1.generated_at) = some 1)
    ∧ generate_full_forecast "B01" c7units [] ⟨none, none⟩ none 0 "18m+" [] [] 0
        ≠ generate_full_forecast "B01" c7units [] ⟨none, none⟩ none 0 "18m+" [] [] 1 := by
  have hne : c7units ≠ [] := by simp [c7units]
  have h0 := gff_generated_at "B01" c7units [] ⟨none, none⟩ none 0 "18m+" [] [] 0 28 rfl hne
  have h1 := gff_generated_at "B01" c7units [] ⟨none, none⟩ none 0 "18m+" [] [] 1 28 rfl hne
  refine ⟨h0, h1, fun h => ?_⟩
  rw [h] at h0
  have : some (0 : ℤ) = some 1 := h0.symm.trans h1
  exact absurd (Option.some.inj this) (by norm_num)

lemma velocity_zero_of_all_future (I L : List ℚ) (wd : List (Option ℤ)) (today : ℤ)
    (h : ∀ o ∈ wd, ∀ x : ℤ, o = some x → today ≤ x) :
    calculate_sales_velocity_adjustment I L wd today = 0 := by
  have hnil : (calculate_column_n_velocity I L wd today).filterMap id = [] := by
    rw [List.filterMap_eq_nil_iff]
    intro a ha
    rw [calculate_column_n_velocity] at ha
    obtain ⟨idx, hidx, hfa⟩ := List.mem_map.1 ha
    rcases hw : (if idx < wd.length then wd.getD idx none else none) with _ | we
    · rw [← hfa]
      simp only [hw]
      rfl
    · have hwe : today ≤ we := by
        by_cases hlt : idx < wd.length
        · rw [if_pos hlt, List.getD_eq_getElem?_getD, List.getElem?_eq_getElem hlt,
            Option.getD_some] at hw
          have hmem : wd[idx] ∈ wd := List.getElem_mem hlt
          rw [hw] at hmem
          exact h (some we) hmem we rfl
        · rw [if_neg hlt] at hw
          exact absurd hw (by simp)
      rw [← hfa]
      simp only [hw]
      rw [if_pos hwe]
      rfl
  unfold calculate_sales_velocity_adjustment
  rw [foldl_last_some, hnil]
  rfl

lemma f18m_settings_written (ud : List UnitsRow) (today : ℤ) (s : SettingsDict)
    (d : ℤ) (hd : ((ud.map (·.week_end)).getLast?).getD none = some d)
    (hne : ud ≠ []) :
    ∃ r v, calculate_forecast_18m_plus ud today (some s) = F18Result.full r
      ∧ r.settings = { s with calculated_velocity_adjustment := some v } := by
  match ud, hne with
  | u :: t, _ =>
    simp only [calculate_forecast_18m_plus, hd, Option.getD_some]
    exact ⟨_, _, rfl, rfl⟩

/-- C9 (amended): the in-place settings mutations.  (1) On a nonempty sales
series with a parseable last date, the 18m+ algorithm returns a full result
whose settings echo is exactly the caller's dict with
`calculated_velocity_adjustment` written into it; (2) on empty input the
early return hands the caller's dict back untouched — no velocity key is
written; (3) on the orchestrator's success path the caller's dict observed
after the call equals the input dict with `total_inventory` and
`fba_available` seeded from the inventory argument and
`calculated_velocity_adjustment` written by the 18m+ pass.  The claim's
universal conclusion — that the observed dict always differs from the one
passed in — does not follow: a dict already holding exactly these values is
returned unchanged (see the counterexample). -/
theorem C9_settings_mutation :
    (∀ (ud : List UnitsRow) (today : ℤ) (s : SettingsDict) (d : ℤ),
      ((ud.map (·.week_end)).getLast?).getD none = some d → ud ≠ [] →
      ∃ r v, calculate_forecast_18m_plus ud today (some s) = F18Result.full r
        ∧ r.settings = { s with calculated_velocity_adjustment := some v })
    ∧ (∀ (today : ℤ) (s : SettingsDict),
      calculate_forecast_18m_plus [] today (some s) = F18Result.early s)
    ∧ (∀ (asin : String) (ud : List UnitsRow) (sdata : List SeasonalityRow)
        (inv : InventoryDict) (s? : Option SettingsDict) (today : ℤ) (alg : String)
        (vine : List VineClaim) (psv : List SvRow) (now d : ℤ),
      ((ud.map (·.week_end)).getLast?).getD none = some d → ud ≠ [] →
      ∃ g v, generate_full_forecast asin ud sdata inv s? today alg vine psv now
        = some (g, { gffSeedSettings (s?.getD DEFAULT_SETTINGS) inv with
            calculated_velocity_adjustment := some v })) := by
  refine ⟨fun ud today s d hd hne => f18m_settings_written ud today s d hd hne,
    fun today s => rfl,
    fun asin ud sdata inv s? today alg vine psv now d hd hne => ?_⟩
  obtain ⟨r18, v, h18, hs⟩ := f18m_settings_written ud today
    (gffSeedSettings (s?.getD DEFAULT_SETTINGS) inv) d hd hne
  obtain ⟨r618, h618⟩ := f618_full_of ud sdata today r18.settings vine psv hne
  have hmain : generate_full_forecast asin ud sdata inv s? today alg vine psv now
      = some (gffAssemble asin now today inv alg r18.settings r18 r618
          (calculate_forecast_0_6m_exact ud sdata vine today r18.settings psv),
        r18.settings) := by
    unfold generate_full_forecast
    rw [h18]
    simp only [gffDispatch]
    rw [h618]
    simp only [gff618Dispatch]
  exact ⟨_, v, by rw [hmain, hs]⟩

/-- C9 witness: `C9_settings_mutation` at a one-row history (full result
with the velocity write), the empty history (dict unchanged), and an
orchestrator call seeded from inventory `(2, 1)`. -/
theorem C9_witness :
    (∃ r v, calculate_forecast_18m_plus [⟨some 7, some 1⟩] 9 (some DEFAULT_SETTINGS)
        = F18Result.full r
      ∧ r.settings = { DEFAULT_SETTINGS with calculated_velocity_adjustment := some v })
    ∧ calculate_forecast_18m_plus [] 9 (some DEFAULT_SETTINGS)
        = F18Result.early DEFAULT_SETTINGS
    ∧ (∃ g v, generate_full_forecast "W" [⟨some 7, some 1⟩] [] ⟨some 2, some 1⟩
          (some DEFAULT_SETTINGS) 9 "18m+" [] [] 0
        = some (g, { gffSeedSettings DEFAULT_SETTINGS ⟨some 2, some 1⟩ with
            calculated_velocity_adjustment := some v })) :=
  ⟨(C9_settings_mutation).1 [⟨some 7, some 1⟩] 9 DEFAULT_SETTINGS 7 rfl (by simp),
   (C9_settings_mutation).2.1 9 DEFAULT_SETTINGS,
   (C9_settings_mutation).2.2 "W" [⟨some 7, some 1⟩] [] ⟨some 2, some 1⟩
     (some DEFAULT_SETTINGS) 9 "18m+" [] [] 0 7 rfl (by simp)⟩

def c9rows : List UnitsRow :=
  [⟨some 7, some 1⟩, ⟨some 14, some 2⟩, ⟨some 21, some 3⟩, ⟨some 28, some 4⟩]

def c9settings : SettingsDict :=
  { DEFAULT_SETTINGS with
    total_inventory := some 5
    fba_available := some 3
    calculated_velocity_adjustment := some 0 }

/-- C9 counterexample: the claim that the dict observed by the caller always
differs from the one passed in is false.  With `today = 0` every week of
this 4-row series lies in the future, so Column N is entirely empty and the
computed velocity adjustment is 0; a caller-provided dict already holding
`calculated_velocity_adjustment = 0` (and its own inventory keys) is
returned exactly as it was passed in. -/
theorem C9_counterexample :
    ∃ r, calculate_forecast_18m_plus c9rows 0 (some c9settings) = F18Result.full r
      ∧ r.settings = c9settings := by
  have hall : ∀ o ∈ ([⟨some 7, some 1⟩, ⟨some 14, some 2⟩, ⟨some 21, some 3⟩,
      ⟨some 28, some 4⟩] : List UnitsRow).map (·.week_end), ∀ x : ℤ,
      o = some x → (0:ℤ) ≤ x := by
    intro o ho x hx
    simp only [List.map_cons, List.map_nil, List.mem_cons,
      List.not_mem_nil, or_false] at ho
    rcases ho with h | h | h | h <;> rw [h] at hx <;>
      injection hx with hx2 <;> omega
  show ∃ r, calculate_forecast_18m_plus ([⟨some 7, some 1⟩, ⟨some 14, some 2⟩,
      ⟨some 21, some 3⟩, ⟨some 28, some 4⟩] : List UnitsRow) 0 (some c9settings)
      = F18Result.full r ∧ r.settings = c9settings
  simp only [calculate_forecast_18m_plus,
    show ((([⟨some 7, some 1⟩, ⟨some 14, some 2⟩, ⟨some 21, some 3⟩,
      ⟨some 28, some 4⟩] : List UnitsRow).map (·.week_end)).getLast?).getD none
      = some 28 from rfl, Option.getD_some]
  rw [if_pos (show (c9settings.auto_velocity).getD true = true from rfl)]
  rw [velocity_zero_of_all_future _ _ _ _ hall]
  exact ⟨_, rfl, rfl⟩

/-- C10: the 0-6m seasonality defaults.  (1) A future week whose
week-of-year has no entry in the seasonality lookup enters the elasticity
formula with index 0.5: the forecast is
`max(0, peak * (0.5 / idx_now) ^ 0.65)`; (2) the 0.15 fallback belongs to
`idx_now` alone — it applies when the most recent historical week's index is
missing, and (3) when that index is `≤ 0`, while (4) a positive looked-up
index is used as-is; (5) the `idx_now` of the full 0-6m computation is
exactly this `idxNow06` value over the 0-6m seasonality lookup; (6) the two
defaults 0.5 and 0.15 are distinct constants. -/
theorem C10_seasonality_defaults :
    (∀ (lookup : ℤ → Option ℚ) (idx_now peak : ℚ) (d : ℤ),
      lookup (isoWeekOfYear d) = none → 0 < idx_now → 0 < peak →
      forecast06At lookup idx_now peak d
        = max 0 ((peak : ℝ) * Real.rpow (((1/2 : ℚ) : ℝ) / (idx_now : ℝ)) (13/20)))
    ∧ (∀ (lookup : ℤ → Option ℚ) (w today : ℤ),
      lookup w = none → idxNow06 lookup (some w) today = 3/20)
    ∧ (∀ (lookup : ℤ → Option ℚ) (w today : ℤ) (v : ℚ),
      lookup w = some v → v ≤ 0 → idxNow06 lookup (some w) today = 3/20)
    ∧ (∀ (lookup : ℤ → Option ℚ) (w today : ℤ) (v : ℚ),
      lookup w = some v → 0 < v → idxNow06 lookup (some w) today = v)
    ∧ (∀ (ud : List UnitsRow) (sd : List SeasonalityRow) (vc : List VineClaim)
        (today : ℤ) (s : SettingsDict) (psv : List SvRow),
      (calculate_forecast_0_6m_exact ud sd vc today s psv).idx_now
        = idxNow06 (seasonality06Lookup psv sd) (lastHistoricalWeek ud today) today)
    ∧ ((1/2 : ℚ) ≠ (3/20 : ℚ)) := by
  refine ⟨fun lookup idx_now peak d hlk hpos hpk => ?_,
    fun lookup w today hlk => ?_,
    fun lookup w today v hlk hv => ?_,
    fun lookup w today v hlk hv => ?_,
    fun ud sd vc today s psv => rfl,
    by norm_num⟩
  · unfold forecast06At
    rw [hlk, if_pos ⟨hpos, hpk⟩]
    simp only [Option.getD_none]
  · simp only [idxNow06, hlk, Option.getD_none]
    norm_num
  · simp only [idxNow06, hlk, Option.getD_some]
    rw [if_pos hv]
  · simp only [idxNow06, hlk, Option.getD_some]
    rw [if_neg (not_le.mpr hv)]

/-- C10 witness: the hypothesis-bearing conjuncts of
`C10_seasonality_defaults` at concrete inputs — an all-empty lookup for a
future week (index 0.5 enters the formula), a missing `idx_now` (0.15), a
non-positive stored index (0.15), and a positive stored index (used
as-is). -/
theorem C10_witness :
    (forecast06At (fun _ => none) (3/20) 1 5
      = max 0 (((1 : ℚ) : ℝ) * Real.rpow (((1/2 : ℚ) : ℝ) / ((3/20 : ℚ) : ℝ)) (13/20)))
    ∧ idxNow06 (fun _ => none) (some 3) 0 = 3/20
    ∧ idxNow06 (fun x => if x = 3 then some (-1) else none) (some 3) 0 = 3/20
    ∧ idxNow06 (fun x => if x = 3 then some (7/10) else none) (some 3) 0 = 7/10 :=
  ⟨(C10_seasonality_defaults).1 (fun _ => none) (3/20) 1 5 rfl (by norm_num) (by norm_num),
   (C10_seasonality_defaults).2.1 (fun _ => none) 3 0 rfl,
   (C10_seasonality_defaults).2.2.1 (fun x => if x = 3 then some (-1) else none) 3 0
     (-1) (by norm_num) (by norm_num),
   (C10_seasonality_defaults).2.2.2.1 (fun x => if x = 3 then some (7/10) else none) 3 0
     (7/10) (by norm_num) (by norm_num)⟩
